import Mathlib

/-!
# Verification of the `ba-project` quiz-generation pipeline

A shallow embedding, in Lean 4, of the data-shaping logic of the
`ba-project` repository (a Streamlit quiz-generation application), together
with proofs and refutations of the specification's claims about it.

Python strings are modelled as lists of Unicode code points (`List Nat`);
Python `int` arithmetic is modelled with `Nat`/`Int` (values are unbounded
in Python, so no wrap-around is introduced); Python dictionaries holding
question records are modelled either as a flat `Question` structure with
optional fields (for the statically built records) or as a JSON value tree
`JVal` (for the serialization pipeline); fallible operations return
`Option`.

Embedded code, by section:
* distribution calculator: `main_app.py`, `main` (lines 870-888);
* statistics: `src/utils/utils.py` `generate_statistics` (identical copy in
  `main_app.py`);
* prompt construction: `question_generator.py` `create_question_prompt`;
* JSON serialization/parsing: the `json.dumps(…, ensure_ascii=False,
  indent=2)` / `json.loads` calls of `file_manager.py` and `main_app.py`
  (the `json` module is the Python standard library; its documented
  behaviour for the value shapes that occur here is embedded directly);
* API response handling: `question_generator.py` `generate_single_question`
  and `generate_fallback_question`;
* static generator paths: `question_generator.py`
  `generate_process_flow_question`, `generate_ui_design_question`;
  `src/generators/visual_generator.py` `EnhancedBAQuestionGenerator`;
* PDF pagination: `src/output/pdf_generator.py` `_add_question_section`,
  `_add_answer_section` (identical logic in `main_app.py`);
* download bundling: `file_manager.py` `create_download_zip`,
  `create_excel_file`;
* text escaping: `src/utils/utils.py` `safe_text_escape` (identical copy in
  `main_app.py`).
-/

namespace BAProject

/-- Unicode code points of a Lean string: the model of a Python `str`. -/
def s2c (s : String) : List Nat := s.data.map Char.toNat

/-! ## Distribution calculator (`main_app.py`, lines 870-888)

```python
mc_count = int(total_questions * multiple_choice_ratio / 100)
sa_count = int(total_questions * short_answer_ratio / 100)
essay_count = total_questions - mc_count - sa_count

for q_type, count in [("선다형", mc_count), ("단답형", sa_count), ("서술형", essay_count)]:
    if count > 0:
        easy_count = int(count * easy_ratio / 100)
        medium_count = int(count * medium_ratio / 100)
        hard_count = count - easy_count - medium_count
        for difficulty, diff_count in zip(["하", "중", "상"], [easy_count, medium_count, hard_count]):
            for _ in range(diff_count):
                ...
                question_distribution.append((q_type, subject, difficulty))
```

`total_questions` comes from a slider with range 10..200 and each ratio
from a slider with range 0..100, so every product is a non-negative
integer at most 20000; in that range `int(n / 100)` on the Python float
quotient coincides with floor division `n // 100`, which is how the
quotients are embedded below.  `mc_count` and `sa_count` are therefore
natural numbers, while `essay_count` (and each `hard_count`) is an
integer that may be negative.  `range(d)` of a non-positive `d` is empty,
which is what `Int.toNat` expresses in `enqueuedForType`. -/

/-- Model of `mc_count = int(total_questions * multiple_choice_ratio / 100)`. -/
def mc_count (total mcr : Nat) : Nat := total * mcr / 100

/-- Model of `sa_count = int(total_questions * short_answer_ratio / 100)`. -/
def sa_count (total sar : Nat) : Nat := total * sar / 100

/-- Model of `essay_count = total_questions - mc_count - sa_count` (may be negative). -/
def essay_count (total mcr sar : Nat) : Int :=
  (total : Int) - mc_count total mcr - sa_count total sar

/-- Model of `easy_count = int(count * easy_ratio / 100)` for a positive type count. -/
def easy_count (count er : Nat) : Nat := count * er / 100

/-- Model of `medium_count = int(count * medium_ratio / 100)` for a positive type count. -/
def medium_count (count mr : Nat) : Nat := count * mr / 100

/-- Model of `hard_count = count - easy_count - medium_count` (may be negative). -/
def hard_count (count er mr : Nat) : Int :=
  (count : Int) - easy_count count er - medium_count count mr

/-- Number of `(type, subject, difficulty)` tuples the generation loop
appends for one type bucket: zero when the guard `count > 0` fails,
otherwise the three difficulty counts with `range` of a negative count
contributing nothing. -/
def enqueuedForType (count : Int) (er mr : Nat) : Nat :=
  if 0 < count then
    easy_count count.toNat er + medium_count count.toNat mr
      + (hard_count count.toNat er mr).toNat
  else 0

/-- Total number of `(type, subject, difficulty)` tuples enqueued in
`question_distribution` for one run of the generation loop. -/
def totalEnqueued (total mcr sar er mr : Nat) : Nat :=
  enqueuedForType (mc_count total mcr) er mr
    + enqueuedForType (sa_count total sar) er mr
    + enqueuedForType (essay_count total mcr sar) er mr

/-- Auxiliary: floor quotients add up below the quotient of the sum. -/
theorem div_add_div_le_div (a b n : Nat) : a / n + b / n ≤ (a + b) / n := by
  rcases Nat.eq_zero_or_pos n with h | h
  · simp [h]
  · rw [Nat.le_div_iff_mul_le h, Nat.add_mul]
    exact Nat.add_le_add (Nat.div_mul_le_self a n) (Nat.div_mul_le_self b n)

/-- Auxiliary: when the two difficulty sliders add up to at most 100%,
the easy and medium buckets together never exceed the type count. -/
theorem easy_add_medium_le (count er mr : Nat) (hd : er + mr ≤ 100) :
    easy_count count er + medium_count count mr ≤ count := by
  unfold easy_count medium_count
  calc count * er / 100 + count * mr / 100
      ≤ (count * er + count * mr) / 100 := div_add_div_le_div _ _ _
    _ = count * (er + mr) / 100 := by rw [Nat.mul_add]
    _ ≤ count * 100 / 100 := Nat.div_le_div_right (Nat.mul_le_mul_left _ hd)
    _ = count := by omega

/-- Auxiliary: with sane difficulty sliders a positive type bucket
enqueues exactly its own count of tuples. -/
theorem enqueuedForType_eq (c er mr : Nat) (hd : er + mr ≤ 100) :
    enqueuedForType (c : Int) er mr = c := by
  unfold enqueuedForType
  rcases Nat.eq_zero_or_pos c with h | h
  · simp [h]
  · have hc : (0 : Int) < (c : Int) := by exact_mod_cast h
    have hle := easy_add_medium_le c er mr hd
    simp only [hc, if_true, Int.toNat_natCast]
    unfold hard_count
    omega

/-- C1: for any total and any slider settings in `[0,100]`, the three
per-type bucket counts (`mc_count`, `sa_count`, and the remainder
`essay_count`) sum exactly to the requested total, and within a type the
three per-difficulty bucket counts (`easy_count`, `medium_count`, and the
remainder `hard_count`) sum exactly to that type's count. -/
theorem distribution_sums_to_total (total mcr sar count er mr : Nat)
    (h1 : mcr ≤ 100) (h2 : sar ≤ 100) (h3 : er ≤ 100) (h4 : mr ≤ 100) :
    (mc_count total mcr : Int) + sa_count total sar + essay_count total mcr sar
        = total ∧
    (easy_count count er : Int) + medium_count count mr + hard_count count er mr
        = count := by
  unfold essay_count hard_count
  constructor <;> ring

/-- Witness for `distribution_sums_to_total` at `total = 50`,
ratios `60/25` and `50/35`, a type count of `12`. -/
theorem distribution_sums_to_total_witness :
    (60 ≤ 100 ∧ 25 ≤ 100 ∧ 50 ≤ 100 ∧ 35 ≤ 100) ∧
    ((mc_count 50 60 : Int) + sa_count 50 25 + essay_count 50 60 25 = 50 ∧
     (easy_count 12 50 : Int) + medium_count 12 35 + hard_count 12 50 35 = 12) :=
  ⟨by decide,
   distribution_sums_to_total 50 60 25 12 50 35
     (by decide) (by decide) (by decide) (by decide)⟩

/-- C2 counterexample.  At `total = 10` with type sliders `80/80`
(summing to 160 > 100) and difficulty sliders `50/35`, the final type
bucket is `-6`; the loop enqueues zero questions for it, but the total
number of enqueued tuples is `16`, *more* than the requested `10`, not
fewer as the claim states.  Moreover at type sliders `55/55` (summing to
110 > 100) the final bucket is `0`, not negative, refuting the claim that
slider sums above 100 make it negative. -/
theorem distribution_overflow_counterexample :
    (80 + 80 > 100 ∧ essay_count 10 80 80 = -6 ∧
      enqueuedForType (essay_count 10 80 80) 50 35 = 0 ∧
      totalEnqueued 10 80 80 50 35 = 16 ∧
      ¬ totalEnqueued 10 80 80 50 35 < 10) ∧
    (55 + 55 > 100 ∧ essay_count 10 55 55 = 0) := by
  constructor
  · refine ⟨by decide, by decide, by decide, by decide, by decide⟩
  · exact ⟨by decide, by decide⟩

/-- C2 amended: each non-final bucket is a truncating division and the
final bucket is the raw remainder with no edge-case handling; the
remainder can only go negative when the type sliders sum to more than
100%, and then the generation loop silently enqueues zero questions for
the essay bucket — but (with difficulty sliders summing to at most 100%)
the total number of enqueued tuples equals `mc_count + sa_count`, which
*exceeds* the requested total. -/
theorem distribution_negative_remainder (total mcr sar er mr : Nat)
    (hd : er + mr ≤ 100) (hneg : essay_count total mcr sar < 0) :
    100 < mcr + sar ∧
    enqueuedForType (essay_count total mcr sar) er mr = 0 ∧
    totalEnqueued total mcr sar er mr = mc_count total mcr + sa_count total sar ∧
    total < totalEnqueued total mcr sar er mr := by
  have hsum : (total : Int) < mc_count total mcr + sa_count total sar := by
    unfold essay_count at hneg; omega
  have hzero : enqueuedForType (essay_count total mcr sar) er mr = 0 := by
    unfold enqueuedForType
    rw [if_neg]; omega
  have htot : totalEnqueued total mcr sar er mr
      = mc_count total mcr + sa_count total sar := by
    unfold totalEnqueued
    rw [hzero, enqueuedForType_eq _ _ _ hd, enqueuedForType_eq _ _ _ hd]
    omega
  refine ⟨?_, hzero, htot, ?_⟩
  · by_contra hle
    push_neg at hle
    have hmc : mc_count total mcr ≤ total * mcr / 100 := Nat.le_refl _
    have : mc_count total mcr + sa_count total sar ≤ total := by
      unfold mc_count sa_count
      calc total * mcr / 100 + total * sar / 100
          ≤ (total * mcr + total * sar) / 100 := div_add_div_le_div _ _ _
        _ = total * (mcr + sar) / 100 := by rw [Nat.mul_add]
        _ ≤ total * 100 / 100 := Nat.div_le_div_right (Nat.mul_le_mul_left _ hle)
        _ = total := by omega
    omega
  · rw [htot]; exact_mod_cast hsum

/-- Witness for `distribution_negative_remainder` at
`total = 10`, type sliders `80/80`, difficulty sliders `50/35`. -/
theorem distribution_negative_remainder_witness :
    (50 + 35 ≤ 100 ∧ essay_count 10 80 80 < 0) ∧
    (100 < 80 + 80 ∧
     enqueuedForType (essay_count 10 80 80) 50 35 = 0 ∧
     totalEnqueued 10 80 80 50 35 = mc_count 10 80 + sa_count 10 80 ∧
     10 < totalEnqueued 10 80 80 50 35) :=
  ⟨⟨by decide, by decide⟩,
   distribution_negative_remainder 10 80 80 50 35 (by decide) (by decide)⟩

/-! ## `safe_text_escape` (`src/utils/utils.py`, lines 83-101; identical
copy in `main_app.py`, lines 172-190)

```python
def safe_text_escape(text):
    if text is None:
        return 'N/A'
    if isinstance(text, str):
        text_str = text
    elif isinstance(text, dict):
        text_str = text.get('text', text.get('description', text.get('value', str(text))))
    elif isinstance(text, list):
        text_str = str(text[0]) if text else ''
    else:
        text_str = str(text)
    return text_str.replace('&', '&amp;').replace('<', '&lt;').replace('>', '&gt;')
```

Python values that can reach this function are modelled by `PyVal`
(`pyint` standing for the „any other value" branch).  A dictionary whose
`'text'`/`'description'`/`'value'` entry is present but is not a string
makes `text_str` a non-string, so `text_str.replace` raises
`AttributeError`; the embedding returns `none` for that case and `some`
of the produced string everywhere else. -/

/-- Model of a Python value reaching `safe_text_escape`. -/
inductive PyVal where
  | pynone : PyVal
  | pystr (s : List Nat) : PyVal
  | pyint (n : Int) : PyVal
  | pylist (xs : List PyVal) : PyVal
  | pydict (kvs : List (List Nat × PyVal)) : PyVal
deriving Repr

/-- Model of `dict.get(k)` with `None` default: first matching key of the
association list (Python dictionaries have unique keys). -/
def dictGet (kvs : List (List Nat × PyVal)) (k : List Nat) : Option PyVal :=
  match kvs with
  | [] => none
  | (k₁, v) :: rest => if k₁ = k then some v else dictGet rest k

/-- Decimal rendering of a Python `int` under `str`. -/
def intStr (n : Int) : List Nat := s2c (toString n)

/-- Join a list of strings with `", "`, as Python's container rendering
does. -/
def joinCS : List (List Nat) → List Nat
  | [] => []
  | [x] => x
  | x :: y :: xs => x ++ s2c ", " ++ joinCS (y :: xs)

mutual

/-- Model of Python `repr` for the values of `PyVal`.  Containers render
as `[elt, …]` / `\x7bkey: value, …\x7d` via the reprs of their parts and
strings are wrapped in single quotes; the finer points of CPython's quote
selection and in-string escaping are not modelled (no theorem below
depends on the rendered text of a container or of a quoted string). -/
def pyRepr : PyVal → List Nat
  | .pynone => s2c "None"
  | .pystr s => 39 :: (s ++ [39])
  | .pyint n => intStr n
  | .pylist xs => 91 :: (joinCS (pyReprList xs) ++ [93])
  | .pydict kvs => 123 :: (joinCS (pyReprKVs kvs) ++ [125])

/-- Rendering via `repr` of each element of a list. -/
def pyReprList : List PyVal → List (List Nat)
  | [] => []
  | x :: xs => pyRepr x :: pyReprList xs

/-- Rendering `repr(key): repr(value)` of each entry of a dictionary. -/
def pyReprKVs : List (List Nat × PyVal) → List (List Nat)
  | [] => []
  | (k, v) :: kvs => (pyRepr (.pystr k) ++ s2c ": " ++ pyRepr v) :: pyReprKVs kvs

end

/-- Model of Python `str`: the identity on strings, `repr` elsewhere. -/
def pyStr : PyVal → List Nat
  | .pystr s => s
  | v => pyRepr v

/-- Model of `s.replace(c, rep)` for a single-character pattern `c`. -/
def replChar (c : Nat) (rep : List Nat) (s : List Nat) : List Nat :=
  s.flatMap fun d => if d = c then rep else [d]

/-- The escaping chain of `safe_text_escape`:
`.replace('&', '&amp;').replace('<', '&lt;').replace('>', '&gt;')`. -/
def escapeStr (s : List Nat) : List Nat :=
  replChar 62 (s2c "&gt;") (replChar 60 (s2c "&lt;") (replChar 38 (s2c "&amp;") s))

/-- The `text.get('text', text.get('description', text.get('value', …)))`
chain, with the final `str(text)` default left to the caller. -/
def dictTextChain (kvs : List (List Nat × PyVal)) : Option PyVal :=
  (dictGet kvs (s2c "text")).or
    ((dictGet kvs (s2c "description")).or (dictGet kvs (s2c "value")))

/-- Model of `safe_text_escape`, with `none` marking the `AttributeError` raised
when a dictionary's selected entry is not a string. -/
def safe_text_escape : PyVal → Option (List Nat)
  | .pynone => some (s2c "N/A")
  | .pystr s => some (escapeStr s)
  | .pydict kvs =>
      match dictTextChain kvs with
      | some (.pystr s) => some (escapeStr s)
      | some _ => none
      | none => some (escapeStr (pyStr (.pydict kvs)))
  | .pylist [] => some (escapeStr [])
  | .pylist (x :: _) => some (escapeStr (pyStr x))
  | .pyint n => some (escapeStr (pyStr (.pyint n)))

/-- Auxiliary: replacing occurrences of `c` by a `c`-free string leaves
no occurrence of `c`. -/
theorem not_mem_replChar_self {c : Nat} {rep : List Nat} (s : List Nat)
    (hrep : c ∉ rep) : c ∉ replChar c rep s := by
  intro hmem
  rcases List.mem_flatMap.mp hmem with ⟨d, _, hd⟩
  by_cases h : d = c
  · rw [if_pos h] at hd; exact hrep hd
  · rw [if_neg h] at hd; simp at hd; exact h hd.symm

/-- Auxiliary: a later single-character replacement pass neither
introduces `c` (absent from its replacement string) nor resurrects it. -/
theorem not_mem_replChar_other {c c' : Nat} {rep : List Nat} (s : List Nat)
    (hrep : c ∉ rep) (hs : c ∉ s) : c ∉ replChar c' rep s := by
  intro hmem
  rcases List.mem_flatMap.mp hmem with ⟨d, hds, hd⟩
  by_cases h : d = c'
  · rw [if_pos h] at hd; exact hrep hd
  · rw [if_neg h] at hd; simp at hd; exact hs (hd ▸ hds)

/-- Auxiliary: the escaping chain removes every raw `<` (60) and `>`
(62) from any input string. -/
theorem escapeStr_no_angle (s : List Nat) :
    60 ∉ escapeStr s ∧ 62 ∉ escapeStr s := by
  unfold escapeStr
  constructor
  · exact not_mem_replChar_other _ (by decide)
      (not_mem_replChar_self _ (by decide))
  · exact not_mem_replChar_self _ (by decide)

/-- C10 counterexample: `safe_text_escape` is not total.  On the
dictionary `{'text': 5}` its `'text'` entry is an `int`, so
`text_str.replace` raises `AttributeError` and no string is returned. -/
theorem safe_text_escape_not_total :
    safe_text_escape (.pydict [(s2c "text", .pyint 5)]) = none := by rfl

/-- C10 amended: `safe_text_escape` maps `None` to `'N/A'`, escapes a
string input by the three replacements (so the result contains no raw
`<` or `>`), uses the first element's string form for a list (empty
string for an empty list), uses a dictionary's
`'text'`/`'description'`/`'value'` entry when present *and itself a
string* (a present non-string entry raises `AttributeError` — the sole
source of partiality), falls back to `str(dict)` when none of the keys
is present, and converts any other value via `str` before escaping. -/
theorem safe_text_escape_behaviour (v : PyVal) :
    safe_text_escape .pynone = some (s2c "N/A") ∧
    (∀ s, safe_text_escape (.pystr s) = some (escapeStr s)) ∧
    safe_text_escape (.pylist []) = some [] ∧
    (∀ x xs, safe_text_escape (.pylist (x :: xs)) = some (escapeStr (pyStr x))) ∧
    (∀ kvs s, dictTextChain kvs = some (.pystr s) →
        safe_text_escape (.pydict kvs) = some (escapeStr s)) ∧
    (∀ kvs, dictTextChain kvs = none →
        safe_text_escape (.pydict kvs) = some (escapeStr (pyStr (.pydict kvs)))) ∧
    (∀ n, safe_text_escape (.pyint n) = some (escapeStr (pyStr (.pyint n)))) ∧
    (∀ r, safe_text_escape v = some r → 60 ∉ r ∧ 62 ∉ r) ∧
    ((safe_text_escape v).isSome = true ∨
      ∃ kvs w, v = .pydict kvs ∧ dictTextChain kvs = some w ∧ ∀ s, w ≠ .pystr s) := by
  refine ⟨rfl, fun s => rfl, rfl, fun x xs => rfl, ?_, ?_, fun n => rfl, ?_, ?_⟩
  · intro kvs s h
    simp only [safe_text_escape, h]
  · intro kvs h
    simp only [safe_text_escape, h]
  · intro r h
    match v with
    | .pynone =>
        simp only [safe_text_escape, Option.some_inj] at h
        subst h
        constructor <;> decide
    | .pystr s =>
        simp only [safe_text_escape, Option.some_inj] at h
        exact h ▸ escapeStr_no_angle s
    | .pyint n =>
        simp only [safe_text_escape, Option.some_inj] at h
        exact h ▸ escapeStr_no_angle _
    | .pylist [] =>
        simp only [safe_text_escape, Option.some_inj] at h
        exact h ▸ escapeStr_no_angle _
    | .pylist (x :: xs) =>
        simp only [safe_text_escape, Option.some_inj] at h
        exact h ▸ escapeStr_no_angle _
    | .pydict kvs =>
        simp only [safe_text_escape] at h
        rcases hc : dictTextChain kvs with _ | w
        · rw [hc] at h
          simp only [Option.some_inj] at h
          exact h ▸ escapeStr_no_angle _
        · rw [hc] at h
          match w with
          | .pystr s =>
              simp only [Option.some_inj] at h
              exact h ▸ escapeStr_no_angle s
          | .pynone => simp at h
          | .pyint _ => simp at h
          | .pylist _ => simp at h
          | .pydict _ => simp at h
  · match v with
    | .pynone => exact Or.inl rfl
    | .pystr s => exact Or.inl rfl
    | .pyint n => exact Or.inl rfl
    | .pylist [] => exact Or.inl rfl
    | .pylist (x :: xs) => exact Or.inl rfl
    | .pydict kvs =>
        rcases hc : dictTextChain kvs with _ | w
        · exact Or.inl (by simp [safe_text_escape, hc])
        · match w with
          | .pystr s => exact Or.inl (by simp [safe_text_escape, hc])
          | .pynone => exact Or.inr ⟨kvs, _, rfl, hc, by intro s; exact fun h => by cases h⟩
          | .pyint m => exact Or.inr ⟨kvs, _, rfl, hc, by intro s; exact fun h => by cases h⟩
          | .pylist l => exact Or.inr ⟨kvs, _, rfl, hc, by intro s; exact fun h => by cases h⟩
          | .pydict d => exact Or.inr ⟨kvs, _, rfl, hc, by intro s; exact fun h => by cases h⟩

/-- Witness for `safe_text_escape_behaviour` at the string
`"<a&b>"`: the escaped output and the absence of raw angle brackets. -/
theorem safe_text_escape_behaviour_witness :
    safe_text_escape (.pystr (s2c "<a&b>")) = some (s2c "&lt;a&amp;b&gt;") ∧
    (60 ∉ s2c "&lt;a&amp;b&gt;" ∧ 62 ∉ s2c "&lt;a&amp;b&gt;") :=
  ⟨by decide,
   (safe_text_escape_behaviour (.pystr (s2c "<a&b>"))).2.2.2.2.2.2.2.1
     (s2c "&lt;a&amp;b&gt;") (by decide)⟩

/-! ## Question records and statistics
(`src/utils/utils.py` `generate_statistics`, lines 128-166; byte-identical
copy in `main_app.py`, lines 530-568)

A question record is a flat Python dictionary; the fields that ever occur
in records built by this repository are modelled as optional fields of
`Question` (`none` = key absent).  `generate_statistics` walks the record
list once, bumping one key per record in each of the type / difficulty /
subject dictionaries (`d[k] = d.get(k, 0) + 1` keeps insertion order:
existing keys update in place, new keys append), counting records whose
`visual_image` value is truthy, and finally computing
`round(visual_count / len(questions) * 100, 1)`.  The quotient is
modelled over `ℚ` with Python's banker's rounding (`pyRound1`); the
double-precision evaluation of the quotient itself is not modelled. -/

/-- A question record: each field optional, mirroring dictionary keys. -/
structure Question where
  question_type : Option (List Nat) := none
  subject_area : Option (List Nat) := none
  difficulty : Option (List Nat) := none
  title : Option (List Nat) := none
  scenario : Option (List Nat) := none
  question : Option (List Nat) := none
  choices : Option (List (List Nat)) := none
  correct_answer : Option (List Nat) := none
  alternative_answers : Option (List (List Nat)) := none
  model_answer : Option (List Nat) := none
  grading_criteria : Option (List (List Nat)) := none
  explanation : Option (List Nat) := none
  points : Option (List Nat) := none
  question_id : Option (List Nat) := none
  generated_at : Option (List Nat) := none
  visual_type : Option (List Nat) := none
  visual_image : Option (List Nat) := none
deriving Repr, DecidableEq

/-- Prepend a code point to the first piece of a split result. -/
def consHead (c : Nat) : List (List Nat) → List (List Nat)
  | [] => [[c]]
  | h :: t => (c :: h) :: t

/-- Model of `subject.split(' > ')`: greedy left-to-right scan for the
three-code-point separator `[32, 62, 32]`, non-overlapping occurrences
consumed whole. -/
def splitSubject : List Nat → List (List Nat)
  | 32 :: 62 :: 32 :: rest => [] :: splitSubject rest
  | c :: rest => consHead c (splitSubject rest)
  | [] => [[]]

/-- Model of `' > ' in subject`. -/
def containsSubjectSep : List Nat → Bool
  | 32 :: 62 :: 32 :: _ => true
  | _ :: rest => containsSubjectSep rest
  | [] => false

/-- Model of `subject.split(' > ')[-1] if ' > ' in subject else subject`. -/
def subjectShort (s : List Nat) : List Nat :=
  if containsSubjectSep s then (splitSubject s).getLastD [] else s

/-- Model of `d[k] = d.get(k, 0) + 1` on an insertion-ordered dictionary. -/
def bump (m : List (List Nat × Nat)) (k : List Nat) : List (List Nat × Nat) :=
  match m with
  | [] => [(k, 1)]
  | (k₁, v) :: rest => if k₁ = k then (k₁, v + 1) :: rest else (k₁, v) :: bump rest k

/-- Model of `if question.get('visual_image'):` — Python truthiness: a missing key
and an empty string are both falsy. -/
def isVisual (q : Question) : Bool :=
  match q.visual_image with
  | some s => !s.isEmpty
  | none => false

/-- Round-half-to-even on `ℚ`, the tie rule of Python's `round`. -/
def roundHalfEven (x : ℚ) : ℤ :=
  let f := ⌊x⌋
  if x - f < 1/2 then f
  else if 1/2 < x - f then f + 1
  else if Even f then f else f + 1

/-- Model of `round(x, 1)` over `ℚ`. -/
def pyRound1 (x : ℚ) : ℚ := (roundHalfEven (10 * x) : ℚ) / 10

/-- The mutable state of the `generate_statistics` loop. -/
structure StatsAcc where
  byType : List (List Nat × Nat)
  byDifficulty : List (List Nat × Nat)
  bySubject : List (List Nat × Nat)
  visualTypes : List (List Nat × Nat)
  visualCount : Nat
deriving Repr

/-- One iteration of the `for question in questions:` loop. -/
def statsStep (a : StatsAcc) (q : Question) : StatsAcc :=
  { byType := bump a.byType (q.question_type.getD (s2c "미분류")),
    byDifficulty := bump a.byDifficulty (q.difficulty.getD (s2c "미분류")),
    bySubject := bump a.bySubject (subjectShort (q.subject_area.getD (s2c "미분류"))),
    visualTypes :=
      if isVisual q then bump a.visualTypes (q.visual_type.getD (s2c "기타"))
      else a.visualTypes,
    visualCount := if isVisual q then a.visualCount + 1 else a.visualCount }

/-- The loop itself. -/
def statsFold (a : StatsAcc) (qs : List Question) : StatsAcc := qs.foldl statsStep a

/-- The dictionary returned by `generate_statistics` (the
`생성_일시` timestamp is environment input and is omitted). -/
structure Stats where
  total : Nat
  byType : List (List Nat × Nat)
  byDifficulty : List (List Nat × Nat)
  bySubject : List (List Nat × Nat)
  visualCount : Nat
  textCount : Nat
  visualRatio : ℚ
  visualTypes : List (List Nat × Nat)
deriving Repr

/-- Model of `generate_statistics(questions)`. -/
def generate_statistics (qs : List Question) : Stats :=
  let a := statsFold ⟨[], [], [], [], 0⟩ qs
  { total := qs.length,
    byType := a.byType,
    byDifficulty := a.byDifficulty,
    bySubject := a.bySubject,
    visualCount := a.visualCount,
    textCount := qs.length - a.visualCount,
    visualRatio :=
      if qs.length = 0 then 0
      else pyRound1 ((a.visualCount : ℚ) / qs.length * 100),
    visualTypes := a.visualTypes }

/-- Sum of the counters of one statistics dictionary. -/
def sumVals (m : List (List Nat × Nat)) : Nat := (m.map Prod.snd).sum

/-- Auxiliary: bumping a key raises the dictionary's counter sum by one. -/
theorem sumVals_bump (m : List (List Nat × Nat)) (k : List Nat) :
    sumVals (bump m k) = sumVals m + 1 := by
  induction m with
  | nil => simp [bump, sumVals]
  | cons hd tl ih =>
      obtain ⟨k₁, v⟩ := hd
      by_cases h : k₁ = k
      · simp [bump, h, sumVals]; omega
      · simp only [bump, if_neg h]
        simp [sumVals] at ih ⊢
        omega

/-- Auxiliary: loop invariant of `generate_statistics` — every pass over
one record adds exactly one to each dictionary's counter sum, and adds
one to the visual count exactly on records with a truthy
`visual_image`. -/
theorem statsFold_invariant (qs : List Question) (a : StatsAcc) :
    sumVals (statsFold a qs).byType = sumVals a.byType + qs.length ∧
    sumVals (statsFold a qs).byDifficulty = sumVals a.byDifficulty + qs.length ∧
    sumVals (statsFold a qs).bySubject = sumVals a.bySubject + qs.length ∧
    (statsFold a qs).visualCount
      = a.visualCount + (qs.filter (fun q => isVisual q)).length := by
  induction qs generalizing a with
  | nil => simp [statsFold]
  | cons q qs ih =>
      have hstep : statsFold a (q :: qs) = statsFold (statsStep a q) qs := rfl
      obtain ⟨h1, h2, h3, h4⟩ := ih (statsStep a q)
      rw [hstep]
      refine ⟨?_, ?_, ?_, ?_⟩
      · rw [h1]; simp [statsStep, sumVals_bump]; omega
      · rw [h2]; simp [statsStep, sumVals_bump]; omega
      · rw [h3]; simp [statsStep, sumVals_bump]; omega
      · rw [h4]
        by_cases hv : isVisual q
        · simp [statsStep, hv, List.filter]; omega
        · simp [statsStep, hv, List.filter]

/-- C5: for every record list, the per-type, per-difficulty and
per-subject counters of `generate_statistics` each sum to the number of
records; the visual and text counts sum to the total; and the visual
ratio is `visual_count / total * 100` rounded to one decimal place
(`0` for an empty list). -/
theorem generate_statistics_sums (qs : List Question) :
    sumVals (generate_statistics qs).byType = qs.length ∧
    sumVals (generate_statistics qs).byDifficulty = qs.length ∧
    sumVals (generate_statistics qs).bySubject = qs.length ∧
    (generate_statistics qs).visualCount + (generate_statistics qs).textCount
      = qs.length ∧
    (qs ≠ [] → (generate_statistics qs).visualRatio
      = pyRound1 (((generate_statistics qs).visualCount : ℚ) / qs.length * 100)) ∧
    (qs = [] → (generate_statistics qs).visualRatio = 0) := by
  obtain ⟨h1, h2, h3, h4⟩ := statsFold_invariant qs ⟨[], [], [], [], 0⟩
  have hvle : (statsFold ⟨[], [], [], [], 0⟩ qs).visualCount ≤ qs.length := by
    rw [h4]
    simpa using List.length_filter_le _ qs
  refine ⟨?_, ?_, ?_, ?_, ?_, ?_⟩
  · simpa [sumVals] using h1
  · simpa [sumVals] using h2
  · simpa [sumVals] using h3
  · simp only [generate_statistics]
    omega
  · intro hne
    have hlen : qs.length ≠ 0 := by simpa using hne
    simp only [generate_statistics, if_neg hlen]
  · intro he
    subst he
    rfl

/-- A two-record sample list (one visual ERD question, one record with
every field missing), used to witness the statistics theorem. -/
def statsSampleQs : List Question :=
  [{ question_type := some (s2c "선다형"),
     subject_area := some (s2c "데이터 모델링 – 데이터 모델링 > 논리데이터 모델링"),
     difficulty := some (s2c "중"),
     visual_type := some (s2c "erd"),
     visual_image := some (s2c "iVBOR") },
   {}]

/-- Witness for `generate_statistics_sums` on `statsSampleQs`. -/
theorem generate_statistics_sums_witness :
    sumVals (generate_statistics statsSampleQs).byType = 2 ∧
    (generate_statistics statsSampleQs).visualRatio
      = pyRound1 ((1 : ℚ) / 2 * 100) := by
  constructor
  · exact (generate_statistics_sums statsSampleQs).1
  · have h := (generate_statistics_sums statsSampleQs).2.2.2.2.1 (by decide)
    rw [show (generate_statistics statsSampleQs).visualCount = 1 from rfl] at h
    rw [show (statsSampleQs.length : ℚ) = 2 by rfl] at h
    exact h

/-! ## Prompt construction (`question_generator.py`
`create_question_prompt`, lines 130-214)

The prompt is an f-string embedding `self.source_content[:4000]` followed
by the requirements block and one of three per-type format templates. -/

/-- The f-string text before the `{self.source_content[:4000]}` slot. -/
def basePromptPre : List Nat :=
  s2c "\n당신은 Business Application 모델링 분야의 전문 출제자입니다.\n다음 학습자료를 바탕으로 실무에 적용 가능한 고품질 문제를 생성해주세요.\n\n**학습자료:**\n"

/-- The f-string text after the source slot: the requirements block with
the `question_type` / `subject_area` / `difficulty` slots filled in. -/
def basePromptMid (qt subj diff : List Nat) : List Nat :=
  s2c "\n\n**문제 요구사항:**\n- 문제유형: " ++ qt
    ++ s2c "\n- 출제영역: " ++ subj
    ++ s2c "\n- 난이도: " ++ diff
    ++ s2c "\n- 실무 적용 가능한 현실적 시나리오 기반\n- 명확하고 정확한 정답과 해설 제공\n\n"

/-- The 선다형 (multiple-choice) format template. -/
def mcSpecificPrompt : List Nat :=
  s2c "\n**선다형 문제 형식:**\n- 5개의 선택지(① ~⑤) 제공\n- 정답은 1개만 존재\n- 각 선택지는 명확하게 구분되는 내용\n- 헷갈리기 쉬운 오답 포함\n\n**출력 형식 (JSON):**\n\x7b\n    \"question_type\": \"선다형\",\n    \"subject_area\": \"출제영역\",\n    \"difficulty\": \"난이도\",\n    \"title\": \"문제 제목\",\n    \"scenario\": \"문제 시나리오/배경\",\n    \"question\": \"질문 내용\",\n    \"choices\": [\"① 선택지1\", \"② 선택지2\", \"③ 선택지3\", \"④ 선택지4\", \"⑤ 선택지5\"],\n    \"correct_answer\": \"정답 번호\",\n    \"explanation\": \"정답 해설\",\n    \"points\": \"배점\"\n\x7d\n"

/-- The 단답형 (short-answer) format template. -/
def saSpecificPrompt : List Nat :=
  s2c "\n**단답형 문제 형식:**\n- 간단명료한 답안 요구\n- 여러 정답 가능한 경우 모두 명시\n- 채점 기준 명확히 제시\n\n**출력 형식 (JSON):**\n\x7b\n    \"question_type\": \"단답형\",\n    \"subject_area\": \"출제영역\",\n    \"difficulty\": \"난이도\",\n    \"title\": \"문제 제목\",\n    \"scenario\": \"문제 시나리오/배경\",\n    \"question\": \"질문 내용\",\n    \"correct_answer\": \"정답\",\n    \"alternative_answers\": [\"대안 정답1\", \"대안 정답2\"],\n    \"explanation\": \"정답 해설\",\n    \"points\": \"배점\"\n\x7d\n"

/-- The 서술형 (essay) format template (the `else` branch). -/
def essaySpecificPrompt : List Nat :=
  s2c "\n**서술형 문제 형식:**\n- 깊이 있는 이해와 분석 능력 평가\n- 논리적 설명과 실무 적용 방안 요구\n- 채점 기준과 모범답안 제시\n\n**출력 형식 (JSON):**\n\x7b\n    \"question_type\": \"서술형\",\n    \"subject_area\": \"출제영역\",\n    \"difficulty\": \"난이도\",\n    \"title\": \"문제 제목\",\n    \"scenario\": \"문제 시나리오/배경\",\n    \"question\": \"질문 내용\",\n    \"model_answer\": \"모범 답안\",\n    \"grading_criteria\": [\"채점 기준1\", \"채점 기준2\", \"채점 기준3\"],\n    \"explanation\": \"문제 의도 및 해설\",\n    \"points\": \"배점\"\n\x7d\n"

/-- Model of `create_question_prompt(question_type, subject_area, difficulty)`
with the object state `self.source_content` passed explicitly. -/
def create_question_prompt (source_content qt subj diff : List Nat) : List Nat :=
  basePromptPre ++ source_content.take 4000 ++ basePromptMid qt subj diff
    ++ (if qt = s2c "선다형" then mcSpecificPrompt
        else if qt = s2c "단답형" then saSpecificPrompt
        else essaySpecificPrompt)

/-- C7: the prompt embeds exactly the first 4000 code points of the
extracted source text — for longer texts a length-4000 prefix of the
original, for texts of at most 4000 code points the entire text
unchanged. -/
theorem prompt_embeds_first_4000 (content qt subj diff : List Nat) :
    (4000 < content.length →
      ∃ suffix, create_question_prompt content qt subj diff
          = basePromptPre ++ content.take 4000 ++ suffix ∧
        (content.take 4000).length = 4000 ∧ content.take 4000 <+: content) ∧
    (content.length ≤ 4000 →
      ∃ suffix, create_question_prompt content qt subj diff
          = basePromptPre ++ content ++ suffix) := by
  constructor
  · intro hlong
    refine ⟨basePromptMid qt subj diff
      ++ (if qt = s2c "선다형" then mcSpecificPrompt
          else if qt = s2c "단답형" then saSpecificPrompt
          else essaySpecificPrompt), ?_, ?_, List.take_prefix _ _⟩
    · simp [create_question_prompt, List.append_assoc]
    · rw [List.length_take]
      omega
  · intro hshort
    refine ⟨basePromptMid qt subj diff
      ++ (if qt = s2c "선다형" then mcSpecificPrompt
          else if qt = s2c "단답형" then saSpecificPrompt
          else essaySpecificPrompt), ?_⟩
    rw [create_question_prompt, List.take_of_length_le hshort]
    simp [List.append_assoc]

/-- Witness for `prompt_embeds_first_4000` on a 4001-character source
text. -/
theorem prompt_embeds_first_4000_witness :
    ∃ suffix,
      create_question_prompt (List.replicate 4001 65) (s2c "선다형") (s2c "영역") (s2c "중")
        = basePromptPre ++ (List.replicate 4001 65).take 4000 ++ suffix ∧
      ((List.replicate 4001 65).take 4000).length = 4000 ∧
      (List.replicate 4001 65).take 4000 <+: List.replicate 4001 65 :=
  (prompt_embeds_first_4000 (List.replicate 4001 65)
    (s2c "선다형") (s2c "영역") (s2c "중")).1
    (by rw [List.length_replicate]; omega)

/-! ## PDF pagination (`src/output/pdf_generator.py`
`_add_question_section` lines 178-231 and `_add_answer_section` lines
351-414; `main_app.py` lines 309-472 has the same logic inline)

Only the sequence of flowables appended to `story` matters for the
pagination claim, so the embedding tracks block kinds.  A question whose
image decoding fails contributes `[paragraph, spacer]` instead of
`[image, spacer]` at the same position — the surrounding pagination logic
is insensitive to which of the two was appended, and the success path is
the one modelled. -/

/-- Kinds of flowables appended to the `story` list. -/
inductive Block where
  | paragraph : Block
  | spacer : Block
  | image : Block
  | pageBreak : Block
deriving Repr, DecidableEq

/-- Python truthiness of an optional string value (`None` and `''` are
falsy). -/
def truthy : Option (List Nat) → Bool
  | some s => !s.isEmpty
  | none => false

/-- Python truthiness of an optional list value (`None` and `[]` are
falsy). -/
def truthyL : Option (List (List Nat)) → Bool
  | some l => !l.isEmpty
  | none => false

/-- Model of `questions_per_page = 1 if question.get('visual_image') else 3`. -/
def questionsPerPage (q : Question) : Nat := if truthy q.visual_image then 1 else 3

/-- Flowables appended for one question in the question section (title
paragraph, info paragraph, optional scenario, optional image, question
text, multiple-choice options), before the page-break check. -/
def questionBodyBlocks (q : Question) : List Block :=
  [.paragraph, .paragraph]
    ++ (if truthy q.scenario then [.paragraph, .spacer] else [])
    ++ (if truthy q.visual_image then [.image, .spacer] else [])
    ++ [.paragraph, .spacer]
    ++ (if q.question_type = some (s2c "선다형") && truthyL q.choices then
          (q.choices.getD []).map (fun _ => Block.paragraph)
        else [])
    ++ [.spacer]

/-- Flowables appended for one question in the answer-key section
(number paragraph, per-type answer paragraphs, optional grading
criteria, optional explanation), before the page-break check. -/
def answerBodyBlocks (q : Question) : List Block :=
  [.paragraph]
    ++ (if q.question_type = some (s2c "선다형") then [.paragraph]
        else if q.question_type = some (s2c "단답형") then [.paragraph]
        else if q.question_type = some (s2c "서술형") then
          [.paragraph]
            ++ (if truthyL q.grading_criteria then
                  .paragraph :: (q.grading_criteria.getD []).map (fun _ => Block.paragraph)
                else [])
        else [])
    ++ (if truthy q.explanation then [.paragraph] else [])
    ++ [.spacer]

/-- The shared shape of both per-question loops: body blocks, then a
page break exactly when the one-based counter `i` is divisible by the
per-question page size and more questions follow. -/
def sectionFrom (body : Question → List Block) (per : Question → Nat)
    (i n : Nat) : List Question → List Block
  | [] => []
  | q :: qs =>
      body q ++ (if i % per q = 0 ∧ i < n then [Block.pageBreak] else [])
        ++ sectionFrom body per (i + 1) n qs

/-- The question section: heading, then the per-question loop. -/
def question_section (qs : List Question) : List Block :=
  [.paragraph, .spacer] ++ sectionFrom questionBodyBlocks questionsPerPage 1 qs.length qs

/-- The answer-key section: leading page break, heading, then the
per-question loop with a fixed page size of 8. -/
def answer_section (qs : List Question) : List Block :=
  [.pageBreak, .paragraph, .spacer]
    ++ sectionFrom answerBodyBlocks (fun _ => 8) 1 qs.length qs

/-- Auxiliary: the first block of the loop output for a non-empty list
is the first block of the first body. -/
theorem sectionFrom_head (body : Question → List Block) (per : Question → Nat)
    (i n : Nat) (q : Question) (qs : List Question) (b : Block) (bs : List Block)
    (hb : body q = b :: bs) :
    (sectionFrom body per i n (q :: qs)).head? = some b := by
  simp [sectionFrom, hb]

/-- Auxiliary: decomposition of the per-question loop output around
question `j` (zero-based), with a page break immediately after its body
exactly when the modulo condition holds at counter `i + j`.  Requires
every body to start with a paragraph so that a following body is never
mistaken for a break. -/
theorem sectionFrom_decompose (body : Question → List Block) (per : Question → Nat)
    (hbody : ∀ q, ∃ bs, body q = Block.paragraph :: bs)
    (qs : List Question) (i n j : Nat) (hj : j < qs.length) :
    ∃ pre rest, sectionFrom body per i n qs = pre ++ body (qs.get ⟨j, hj⟩) ++ rest ∧
      (rest.head? = some Block.pageBreak
        ↔ ((i + j) % per (qs.get ⟨j, hj⟩) = 0 ∧ i + j < n)) := by
  induction qs generalizing i j with
  | nil => exact absurd hj (by simp)
  | cons q qs ih =>
      match j with
      | 0 =>
          refine ⟨[], (if i % per q = 0 ∧ i < n then [Block.pageBreak] else [])
            ++ sectionFrom body per (i + 1) n qs, ?_, ?_⟩
          · simp [sectionFrom]
          · by_cases hc : i % per q = 0 ∧ i < n
            · simp [hc]
            · rw [if_neg hc]
              simp only [List.nil_append]
              constructor
              · intro hh
                exfalso
                match qs with
                | [] => simp [sectionFrom] at hh
                | q₁ :: qs₁ =>
                    obtain ⟨bs, hb⟩ := hbody q₁
                    rw [sectionFrom_head body per _ _ _ _ _ _ hb] at hh
                    simp at hh
              · intro hc₁
                exact absurd (by simpa using hc₁) hc
      | j + 1 =>
          obtain ⟨pre, rest, heq, hiff⟩ := ih (i + 1) j (by simpa using hj)
          refine ⟨body q
            ++ (if i % per q = 0 ∧ i < n then [Block.pageBreak] else []) ++ pre,
            rest, ?_, ?_⟩
          · simp [sectionFrom, heq]
          · have harith : i + 1 + j = i + (j + 1) := by omega
            rw [harith] at hiff
            exact hiff

/-- C8: in the assembled document, a page break immediately follows the
blocks of question `j+1` (one-based) in the answer-key section exactly
when `(j+1) % 8 == 0` and more questions follow, and in the question
section exactly when `(j+1) % N == 0` with `N = 1` for a question
carrying a visual image and `N = 3` otherwise, again only when more
questions follow. -/
theorem page_breaks_modulo (qs : List Question) (j : Nat) (hj : j < qs.length) :
    (∃ pre rest, answer_section qs = pre ++ answerBodyBlocks (qs.get ⟨j, hj⟩) ++ rest ∧
      (rest.head? = some Block.pageBreak ↔ ((j + 1) % 8 = 0 ∧ j + 1 < qs.length))) ∧
    (∃ pre rest, question_section qs = pre ++ questionBodyBlocks (qs.get ⟨j, hj⟩) ++ rest ∧
      (rest.head? = some Block.pageBreak
        ↔ ((j + 1) % questionsPerPage (qs.get ⟨j, hj⟩) = 0 ∧ j + 1 < qs.length))) := by
  constructor
  · obtain ⟨pre, rest, heq, hiff⟩ :=
      sectionFrom_decompose answerBodyBlocks (fun _ => 8)
        (fun q => ⟨_, rfl⟩) qs 1 qs.length j hj
    refine ⟨[.pageBreak, .paragraph, .spacer] ++ pre, rest, ?_, ?_⟩
    · simp [answer_section, heq]
    · rw [Nat.add_comm 1 j] at hiff
      exact hiff
  · obtain ⟨pre, rest, heq, hiff⟩ :=
      sectionFrom_decompose questionBodyBlocks questionsPerPage
        (fun q => ⟨_, rfl⟩) qs 1 qs.length j hj
    refine ⟨[.paragraph, .spacer] ++ pre, rest, ?_, ?_⟩
    · simp [question_section, heq]
    · rw [Nat.add_comm 1 j] at hiff
      exact hiff

/-- Witness for `page_breaks_modulo`: two text questions; a break
follows neither the first (1 % 3 ≠ 0) nor the last (no more questions),
in particular the full sections contain no break after the bodies. -/
theorem page_breaks_modulo_witness :
    0 < ([{}, {}] : List Question).length ∧
    (∃ pre rest, answer_section ([{}, {}] : List Question)
        = pre ++ answerBodyBlocks (([{}, {}] : List Question).get ⟨0, by decide⟩) ++ rest ∧
      (rest.head? = some Block.pageBreak
        ↔ ((0 + 1) % 8 = 0 ∧ 0 + 1 < ([{}, {}] : List Question).length))) :=
  ⟨by decide, (page_breaks_modulo ([{}, {}] : List Question) 0 (by decide)).1⟩

/-! ## Download bundle (`file_manager.py` `create_download_zip` lines
55-79 and `create_excel_file` lines 27-48; `main_app.py`
`create_download_files` lines 496-528)

`create_download_zip` writes the JSON, Excel and statistics entries
unconditionally but guards the PDF entry with `if pdf_data:`; the inline
`main_app.py` version writes all four unconditionally.  All entry names
share one `datetime.now().strftime("%Y%m%d_%H%M%S")` timestamp taken
once before the loop.  `create_excel_file` iterates the three question
types in a fixed order and adds a sheet only when `type_questions` is
non-empty. -/

/-- Sheet names of the Excel workbook: the three types in fixed order,
each kept only when at least one record of that type occurs
(`if type_questions:`). -/
def excelSheets (qs : List Question) : List (List Nat) :=
  [s2c "선다형", s2c "단답형", s2c "서술형"].filter
    (fun t => !(qs.filter (fun q => q.question_type = some t)).isEmpty)

/-- Entry names written by `FileManager.create_download_zip`, in order;
`pdfData` is the byte string returned by the PDF generator (empty on a
generation error, and then skipped by `if pdf_data:`). -/
def zipEntryNames (ts pdfData : List Nat) : List (List Nat) :=
  [s2c "BA_questions_" ++ ts ++ s2c ".json"]
    ++ (if pdfData.isEmpty then [] else [s2c "BA_questions_" ++ ts ++ s2c ".pdf"])
    ++ [s2c "BA_questions_" ++ ts ++ s2c ".xlsx",
        s2c "BA_question_stats_" ++ ts ++ s2c ".json"]

/-- Entry names written by the inline `main_app.create_download_files`,
which adds the PDF entry unconditionally. -/
def zipEntryNamesApp (ts : List Nat) : List (List Nat) :=
  [s2c "BA_questions_" ++ ts ++ s2c ".json",
   s2c "BA_questions_" ++ ts ++ s2c ".pdf",
   s2c "BA_questions_" ++ ts ++ s2c ".xlsx",
   s2c "BA_question_stats_" ++ ts ++ s2c ".json"]

/-- C9 counterexample: a non-empty list holding a single multiple-choice
question yields a workbook with only the 선다형 sheet — there is no sheet
for 단답형 or 서술형, refuting "one sheet per question type"; moreover,
when PDF generation fails (empty byte string), `create_download_zip`
writes no PDF entry at all. -/
theorem excel_sheets_counterexample :
    (excelSheets [{ question_type := some (s2c "선다형") }] = [s2c "선다형"] ∧
     s2c "단답형" ∉ excelSheets [{ question_type := some (s2c "선다형") }] ∧
     s2c "서술형" ∉ excelSheets [{ question_type := some (s2c "선다형") }]) ∧
    (s2c "BA_questions_" ++ s2c "20260101_000000" ++ s2c ".pdf")
      ∉ zipEntryNames (s2c "20260101_000000") [] := by
  refine ⟨⟨by decide, by decide, by decide⟩, by decide⟩

/-- C9 amended: for every non-empty question list the download ZIP
contains a JSON entry, an Excel entry and a statistics JSON entry, and a
PDF entry exactly when the generated PDF byte string is non-empty (the
inline `main_app` variant always lists all four); every entry name
carries the same timestamp suffix; and the Excel workbook has one sheet
per question type *that occurs among the records*, in the fixed order
선다형, 단답형, 서술형. -/
theorem download_bundle_contents (qs : List Question) (ts pdfData : List Nat)
    (hq : qs ≠ []) :
    (s2c "BA_questions_" ++ ts ++ s2c ".json") ∈ zipEntryNames ts pdfData ∧
    (s2c "BA_questions_" ++ ts ++ s2c ".xlsx") ∈ zipEntryNames ts pdfData ∧
    (s2c "BA_question_stats_" ++ ts ++ s2c ".json") ∈ zipEntryNames ts pdfData ∧
    ((s2c "BA_questions_" ++ ts ++ s2c ".pdf") ∈ zipEntryNames ts pdfData
      ↔ pdfData ≠ []) ∧
    (s2c "BA_questions_" ++ ts ++ s2c ".pdf") ∈ zipEntryNamesApp ts ∧
    (∀ name ∈ zipEntryNames ts pdfData, ∃ base ext, name = base ++ ts ++ ext) ∧
    (∀ t, t ∈ excelSheets qs ↔
      (t ∈ [s2c "선다형", s2c "단답형", s2c "서술형"]
        ∧ ∃ q ∈ qs, q.question_type = some t)) := by
  have hne₁ : s2c ".pdf" ≠ s2c ".json" := by decide
  have hne₂ : s2c ".pdf" ≠ s2c ".xlsx" := by decide
  have hlen : (s2c "BA_questions_" ++ ts ++ s2c ".pdf").length
      ≠ (s2c "BA_question_stats_" ++ ts ++ s2c ".json").length := by
    simp [s2c, List.length_append]
  have hmemch : ∀ name, name ∈ zipEntryNames ts pdfData →
      name = s2c "BA_questions_" ++ ts ++ s2c ".json"
      ∨ name = s2c "BA_questions_" ++ ts ++ s2c ".pdf"
      ∨ name = s2c "BA_questions_" ++ ts ++ s2c ".xlsx"
      ∨ name = s2c "BA_question_stats_" ++ ts ++ s2c ".json" := by
    intro name hmem
    by_cases h : pdfData.isEmpty <;>
      · simp only [zipEntryNames, h, if_true, if_false, Bool.false_eq_true,
          List.append_nil, List.nil_append, List.cons_append, List.singleton_append,
          List.mem_cons, List.not_mem_nil, or_false] at hmem
        tauto
  refine ⟨?_, ?_, ?_, ?_, ?_, ?_, ?_⟩
  · by_cases h : pdfData.isEmpty <;> simp [zipEntryNames, h]
  · by_cases h : pdfData.isEmpty <;> simp [zipEntryNames, h]
  · by_cases h : pdfData.isEmpty <;> simp [zipEntryNames, h]
  · constructor
    · intro hmem hempty
      rcases hmemch _ hmem with h | h | h | h
      · exact hne₁ (List.append_cancel_left h)
      · subst hempty
        simp only [zipEntryNames, List.isEmpty_nil, if_true] at hmem
        simp only [List.nil_append, List.cons_append, List.singleton_append,
          List.mem_cons, List.not_mem_nil, or_false] at hmem
        rcases hmem with h₁ | h₁ | h₁
        · exact hne₁ (List.append_cancel_left h₁)
        · exact hne₂ (List.append_cancel_left h₁)
        · exact hlen (congrArg List.length h₁)
      · exact hne₂ (List.append_cancel_left h)
      · exact hlen (congrArg List.length h)
    · intro hne
      have h : pdfData.isEmpty = false := by
        cases pdfData with
        | nil => exact absurd rfl hne
        | cons a l => rfl
      simp [zipEntryNames, h]
  · simp [zipEntryNamesApp]
  · intro name hmem
    rcases hmemch name hmem with h | h | h | h
    · exact ⟨s2c "BA_questions_", s2c ".json", h⟩
    · exact ⟨s2c "BA_questions_", s2c ".pdf", h⟩
    · exact ⟨s2c "BA_questions_", s2c ".xlsx", h⟩
    · exact ⟨s2c "BA_question_stats_", s2c ".json", h⟩
  · intro t
    constructor
    · intro ht
      rw [excelSheets, List.mem_filter] at ht
      obtain ⟨htl, hp⟩ := ht
      refine ⟨htl, ?_⟩
      rcases hfil : qs.filter (fun q => q.question_type = some t) with _ | ⟨q, l⟩
      · rw [hfil] at hp; simp at hp
      · have hqmem : q ∈ qs.filter (fun q => q.question_type = some t) := by
          rw [hfil]; exact List.mem_cons_self _ _
        rw [List.mem_filter] at hqmem
        exact ⟨q, hqmem.1, by simpa using hqmem.2⟩
    · rintro ⟨htl, q, hqmem, hqt⟩
      rw [excelSheets, List.mem_filter]
      refine ⟨htl, ?_⟩
      have hqf : q ∈ qs.filter (fun q => q.question_type = some t) :=
        List.mem_filter.mpr ⟨hqmem, by simpa using hqt⟩
      rcases hfil : qs.filter (fun q => q.question_type = some t) with _ | ⟨q₁, l⟩
      · rw [hfil] at hqf; simp at hqf
      · rw [hfil]; simp

/-- Witness for `download_bundle_contents` on a one-question list with a
non-empty PDF byte string and timestamp `20260101_000000`. -/
theorem download_bundle_contents_witness :
    ([{ question_type := some (s2c "선다형") }] : List Question) ≠ [] ∧
    ((s2c "BA_questions_" ++ s2c "20260101_000000" ++ s2c ".pdf")
        ∈ zipEntryNames (s2c "20260101_000000") [80]
      ↔ ([80] : List Nat) ≠ []) :=
  ⟨by decide,
   (download_bundle_contents [{ question_type := some (s2c "선다형") }]
     (s2c "20260101_000000") [80] (by decide)).2.2.2.1⟩

/-! ## JSON serialization and parsing

`file_manager.create_json_file` / `main_app.create_download_files` call
`json.dumps(questions, ensure_ascii=False, indent=2)`, and
`question_generator.generate_single_question` calls `json.loads` on a
slice of the API response.  The `json` module is the Python standard
library; its documented behaviour is embedded for the value shapes that
occur in this repository: strings, arrays, objects, `null`, `true`,
`false`.  Numbers are not modelled (no record produced by this
repository contains one — every numeric-looking field such as `points`
is string-typed), so the embedded parser reports failure on them.

`dumps` with `indent=2` and `ensure_ascii=False` renders containers with
an item separator of `','` + newline + two-space-per-level indentation,
a key separator of `': '`, empty containers as `[]`/`\x7b\x7d` without
newlines, and strings with only `"` (34), `\` (92) and code points below
0x20 escaped (`\b \t \n \f \r`, else `\u00xx` with lowercase hex);
`loads` skips the whitespace characters space/tab/LF/CR between tokens,
rejects raw control characters inside strings (`strict=True`), decodes
the standard escapes including `\uXXXX`, and requires the whole input to
be consumed up to trailing whitespace. -/

/-- A JSON value. -/
inductive JVal where
  | jnull : JVal
  | jbool (b : Bool) : JVal
  | jstr (s : List Nat) : JVal
  | jarr (xs : List JVal) : JVal
  | jobj (kvs : List (List Nat × JVal)) : JVal

/-- Lowercase hexadecimal digit of a value below 16. -/
def hexDigit (n : Nat) : Nat := if n < 10 then 48 + n else 87 + n

/-- The `ensure_ascii=False` escaping of one code point. -/
def escapeJChar (c : Nat) : List Nat :=
  if c = 34 then [92, 34]
  else if c = 92 then [92, 92]
  else if c < 32 then
    if c = 8 then [92, 98]
    else if c = 9 then [92, 116]
    else if c = 10 then [92, 110]
    else if c = 12 then [92, 102]
    else if c = 13 then [92, 114]
    else [92, 117, 48, 48, hexDigit (c / 16), hexDigit (c % 16)]
  else [c]

/-- A JSON string literal: quote, escaped body, quote. -/
def encodeJString (s : List Nat) : List Nat :=
  34 :: (s.flatMap escapeJChar ++ [34])

/-- Newline plus `indent=2` indentation at nesting level `lvl`. -/
def nlIndent (lvl : Nat) : List Nat := 10 :: List.replicate (2 * lvl) 32

mutual

/-- Model of `json.dumps(v, ensure_ascii=False, indent=2)` at nesting level
`lvl`; the code points 91/93 are `[`/`]`, 123/125 the braces, 44 the
comma, 58 the colon. -/
def dumpJ : Nat → JVal → List Nat
  | _, .jnull => [110, 117, 108, 108]
  | _, .jbool true => [116, 114, 117, 101]
  | _, .jbool false => [102, 97, 108, 115, 101]
  | _, .jstr s => encodeJString s
  | _, .jarr [] => [91, 93]
  | lvl, .jarr (x :: xs) =>
      91 :: (nlIndent (lvl + 1) ++ dumpJ (lvl + 1) x ++ dumpItems (lvl + 1) xs
        ++ nlIndent lvl ++ [93])
  | _, .jobj [] => [123, 125]
  | lvl, .jobj ((k, v) :: kvs) =>
      123 :: (nlIndent (lvl + 1) ++ encodeJString k ++ [58, 32] ++ dumpJ (lvl + 1) v
        ++ dumpEntries (lvl + 1) kvs ++ nlIndent lvl ++ [125])

/-- Second and later array items, each preceded by `','` + newline +
indentation. -/
def dumpItems : Nat → List JVal → List Nat
  | _, [] => []
  | lvl, x :: xs => 44 :: (nlIndent lvl ++ dumpJ lvl x ++ dumpItems lvl xs)

/-- Second and later object entries. -/
def dumpEntries : Nat → List (List Nat × JVal) → List Nat
  | _, [] => []
  | lvl, (k, v) :: kvs =>
      44 :: (nlIndent lvl ++ encodeJString k ++ [58, 32] ++ dumpJ lvl v
        ++ dumpEntries lvl kvs)

end

/-- Model of `json.dumps(v, ensure_ascii=False, indent=2)`. -/
def json_dumps (v : JVal) : List Nat := dumpJ 0 v

/-- The whitespace characters skipped between JSON tokens. -/
def isWs (c : Nat) : Bool := c = 32 || c = 9 || c = 10 || c = 13

/-- Skip leading inter-token whitespace. -/
def skipWs : List Nat → List Nat
  | [] => []
  | c :: rest => if isWs c then skipWs rest else c :: rest

/-- Value of one hexadecimal digit code point. -/
def hexVal (c : Nat) : Option Nat :=
  if 48 ≤ c ∧ c ≤ 57 then some (c - 48)
  else if 97 ≤ c ∧ c ≤ 102 then some (c - 87)
  else if 65 ≤ c ∧ c ≤ 70 then some (c - 55)
  else none

/-- Parse the body of a JSON string after the opening quote, returning
the decoded code points and the input after the closing quote.  Raw
control characters are rejected (`strict=True`); the escapes are the
eight standard ones plus `\uXXXX`. -/
def parseStrBody : List Nat → Option (List Nat × List Nat)
  | [] => none
  | c :: rest =>
      if c = 34 then some ([], rest)
      else if c = 92 then
        match rest with
        | [] => none
        | e :: rest₂ =>
            if e = 34 then (parseStrBody rest₂).map (fun p => (34 :: p.1, p.2))
            else if e = 92 then (parseStrBody rest₂).map (fun p => (92 :: p.1, p.2))
            else if e = 47 then (parseStrBody rest₂).map (fun p => (47 :: p.1, p.2))
            else if e = 98 then (parseStrBody rest₂).map (fun p => (8 :: p.1, p.2))
            else if e = 102 then (parseStrBody rest₂).map (fun p => (12 :: p.1, p.2))
            else if e = 110 then (parseStrBody rest₂).map (fun p => (10 :: p.1, p.2))
            else if e = 114 then (parseStrBody rest₂).map (fun p => (13 :: p.1, p.2))
            else if e = 116 then (parseStrBody rest₂).map (fun p => (9 :: p.1, p.2))
            else if e = 117 then
              match rest₂ with
              | h₁ :: h₂ :: h₃ :: h₄ :: rest₃ =>
                  match hexVal h₁, hexVal h₂, hexVal h₃, hexVal h₄ with
                  | some a, some b, some c₁, some d =>
                      (parseStrBody rest₃).map
                        (fun p => ((a * 4096 + b * 256 + c₁ * 16 + d) :: p.1, p.2))
                  | _, _, _, _ => none
              | _ => none
            else none
      else if c < 32 then none
      else (parseStrBody rest).map (fun p => (c :: p.1, p.2))
termination_by structural input => input

mutual

/-- Fuel-indexed JSON value parser: skip whitespace, then dispatch on
the first code point (`"` string, `[` array, brace object, `null`,
`true`, `false`; anything else — including a number — is a parse
failure).  Fuel only bounds container nesting and item count, never
string length. -/
def parseJ : Nat → List Nat → Option (JVal × List Nat)
  | 0, _ => none
  | fuel + 1, input =>
      match skipWs input with
      | [] => none
      | c :: rest =>
          if c = 34 then (parseStrBody rest).map (fun p => (JVal.jstr p.1, p.2))
          else if c = 91 then
            match skipWs rest with
            | [] => none
            | c₁ :: r =>
                if c₁ = 93 then some (JVal.jarr [], r)
                else (parseArrItems fuel (c₁ :: r)).map (fun p => (JVal.jarr p.1, p.2))
          else if c = 123 then
            match skipWs rest with
            | [] => none
            | c₁ :: r =>
                if c₁ = 125 then some (JVal.jobj [], r)
                else (parseObjItems fuel (c₁ :: r)).map (fun p => (JVal.jobj p.1, p.2))
          else if c = 110 then
            match rest with
            | 117 :: 108 :: 108 :: r => some (JVal.jnull, r)
            | _ => none
          else if c = 116 then
            match rest with
            | 114 :: 117 :: 101 :: r => some (JVal.jbool true, r)
            | _ => none
          else if c = 102 then
            match rest with
            | 97 :: 108 :: 115 :: 101 :: r => some (JVal.jbool false, r)
            | _ => none
          else none

/-- Parse one or more comma-separated array items up to `]`. -/
def parseArrItems : Nat → List Nat → Option (List JVal × List Nat)
  | 0, _ => none
  | fuel + 1, input =>
      match parseJ fuel input with
      | none => none
      | some (v, rest) =>
          match skipWs rest with
          | [] => none
          | c :: r =>
              if c = 44 then (parseArrItems fuel r).map (fun p => (v :: p.1, p.2))
              else if c = 93 then some ([v], r)
              else none

/-- Parse one or more comma-separated `key: value` object entries up to
the closing brace. -/
def parseObjItems : Nat → List Nat → Option (List (List Nat × JVal) × List Nat)
  | 0, _ => none
  | fuel + 1, input =>
      match skipWs input with
      | [] => none
      | c :: rest =>
          if c = 34 then
            match parseStrBody rest with
            | none => none
            | some (k, r₁) =>
                match skipWs r₁ with
                | [] => none
                | c₂ :: r₂ =>
                    if c₂ = 58 then
                      match parseJ fuel r₂ with
                      | none => none
                      | some (v, r₃) =>
                          match skipWs r₃ with
                          | [] => none
                          | c₃ :: r₄ =>
                              if c₃ = 44 then
                                (parseObjItems fuel r₄).map
                                  (fun p => ((k, v) :: p.1, p.2))
                              else if c₃ = 125 then some ([(k, v)], r₄)
                              else none
                    else none
          else none

end

/-- Model of `json.loads`: parse one value with fuel that the round-trip theorem
shows sufficient for any serializer output of this length, then require
only trailing whitespace. -/
def json_loads (s : List Nat) : Option JVal :=
  match parseJ (s.length + 1) s with
  | some (v, rest) => if skipWs rest = [] then some v else none
  | none => none

mutual

/-- Parser fuel needed for a value: one unit per container level and per
item, none for string contents. -/
def jfuel : JVal → Nat
  | .jnull => 1
  | .jbool _ => 1
  | .jstr _ => 1
  | .jarr [] => 1
  | .jarr (x :: xs) => 1 + jfuelItems x xs
  | .jobj [] => 1
  | .jobj ((_, v) :: kvs) => 1 + jfuelEntries v kvs
termination_by v => sizeOf v
decreasing_by all_goals (simp_wf <;> omega)

/-- Fuel needed by `parseArrItems` on a non-empty item list. -/
def jfuelItems : JVal → List JVal → Nat
  | x, [] => 1 + jfuel x
  | x, y :: ys => 1 + max (jfuel x) (jfuelItems y ys)
termination_by x xs => sizeOf x + sizeOf xs
decreasing_by all_goals (simp_wf <;> omega)

/-- Fuel needed by `parseObjItems` on a non-empty entry list. -/
def jfuelEntries : JVal → List (List Nat × JVal) → Nat
  | v, [] => 1 + jfuel v
  | v, (_, w) :: kvs => 1 + max (jfuel v) (jfuelEntries w kvs)
termination_by v kvs => sizeOf v + sizeOf kvs
decreasing_by all_goals (simp_wf <;> omega)

end

/-- A list of inter-token whitespace code points. -/
def WsL (w : List Nat) : Prop := ∀ c ∈ w, isWs c = true

/-- The scan `skipWs` is the identity on input starting with a non-whitespace
code point. -/
theorem skipWs_cons_not {c : Nat} (s : List Nat) (h : isWs c = false) :
    skipWs (c :: s) = c :: s := by
  simp [skipWs, h]

/-- The scan `skipWs` discards a leading run of whitespace. -/
theorem skipWs_ws_append {w : List Nat} (s : List Nat) (hw : WsL w) :
    skipWs (w ++ s) = skipWs s := by
  induction w with
  | nil => rfl
  | cons c cs ih =>
      have hc : isWs c = true := hw c (List.mem_cons_self c cs)
      have hcs : WsL cs := fun d hd => hw d (List.mem_cons_of_mem c hd)
      simp [skipWs, hc, ih hcs]

/-- Every code point of an indentation run is whitespace. -/
theorem nlIndent_ws (lvl : Nat) : WsL (nlIndent lvl) := by
  intro c hc
  simp only [nlIndent, List.mem_cons, List.mem_replicate] at hc
  rcases hc with h | ⟨_, h⟩ <;> simp [h, isWs]

/-- The first code point of any serialized value is one of the seven
token openers — not whitespace and not a closer or separator. -/
theorem dumpJ_head (lvl : Nat) (v : JVal) :
    ∃ c t, dumpJ lvl v = c :: t ∧ isWs c = false
      ∧ c ≠ 93 ∧ c ≠ 125 ∧ c ≠ 44 ∧ c ≠ 58 := by
  match v with
  | .jnull =>
      exact ⟨110, [117, 108, 108], by simp [dumpJ],
        by decide, by decide, by decide, by decide, by decide⟩
  | .jbool true =>
      exact ⟨116, [114, 117, 101], by simp [dumpJ],
        by decide, by decide, by decide, by decide, by decide⟩
  | .jbool false =>
      exact ⟨102, [97, 108, 115, 101], by simp [dumpJ],
        by decide, by decide, by decide, by decide, by decide⟩
  | .jstr s =>
      exact ⟨34, s.flatMap escapeJChar ++ [34], by simp [dumpJ, encodeJString],
        by decide, by decide, by decide, by decide, by decide⟩
  | .jarr [] =>
      exact ⟨91, [93], by simp [dumpJ],
        by decide, by decide, by decide, by decide, by decide⟩
  | .jarr (x :: xs) =>
      exact ⟨91, nlIndent (lvl + 1) ++ dumpJ (lvl + 1) x ++ dumpItems (lvl + 1) xs
          ++ nlIndent lvl ++ [93],
        by simp [dumpJ, List.append_assoc],
        by decide, by decide, by decide, by decide, by decide⟩
  | .jobj [] =>
      exact ⟨123, [125], by simp [dumpJ],
        by decide, by decide, by decide, by decide, by decide⟩
  | .jobj ((k, v₁) :: kvs) =>
      exact ⟨123, nlIndent (lvl + 1) ++ encodeJString k ++ [58, 32] ++ dumpJ (lvl + 1) v₁
          ++ dumpEntries (lvl + 1) kvs ++ nlIndent lvl ++ [125],
        by simp [dumpJ, List.append_assoc],
        by decide, by decide, by decide, by decide, by decide⟩

/-- The scan `skipWs` leaves serializer output untouched. -/
theorem skipWs_dump (lvl : Nat) (v : JVal) (rest : List Nat) :
    skipWs (dumpJ lvl v ++ rest) = dumpJ lvl v ++ rest := by
  obtain ⟨c, t, heq, hws, -⟩ := dumpJ_head lvl v
  rw [heq, List.cons_append, skipWs_cons_not _ hws]

/-- Decoding inverts the hexadecimal digit encoding. -/
theorem hexVal_hexDigit (d : Nat) (hd : d < 16) : hexVal (hexDigit d) = some d := by
  unfold hexDigit hexVal
  by_cases h : d < 10
  · rw [if_pos h, if_pos (by omega)]
    congr 1
    omega
  · rw [if_neg h, if_neg (by omega), if_pos (by omega)]
    congr 1
    omega

/-- The string-body parser inverts the `ensure_ascii=False` escaping:
parsing the escaped body followed by the closing quote recovers the
original code points and hands back the remaining input. -/
theorem parseStrBody_escape (s rest : List Nat) :
    parseStrBody (s.flatMap escapeJChar ++ (34 :: rest)) = some (s, rest) := by
  induction s with
  | nil =>
      show parseStrBody (34 :: rest) = some ([], rest)
      unfold parseStrBody
      simp
  | cons c s ih =>
      show parseStrBody (escapeJChar c ++ s.flatMap escapeJChar ++ (34 :: rest))
        = some (c :: s, rest)
      rw [List.append_assoc]
      by_cases h34 : c = 34
      · subst h34
        simp only [escapeJChar, if_pos rfl, List.cons_append, List.nil_append]
        unfold parseStrBody
        simp [ih]
      · by_cases h92 : c = 92
        · subst h92
          simp only [escapeJChar]
          norm_num
          unfold parseStrBody
          simp [ih]
        · by_cases hctl : c < 32
          · by_cases h8 : c = 8
            · subst h8
              simp only [escapeJChar]
              norm_num
              unfold parseStrBody
              simp [ih]
            · by_cases h9 : c = 9
              · subst h9
                simp only [escapeJChar]
                norm_num
                unfold parseStrBody
                simp [ih]
              · by_cases h10 : c = 10
                · subst h10
                  simp only [escapeJChar]
                  norm_num
                  unfold parseStrBody
                  simp [ih]
                · by_cases h12 : c = 12
                  · subst h12
                    simp only [escapeJChar]
                    norm_num
                    unfold parseStrBody
                    simp [ih]
                  · by_cases h13 : c = 13
                    · subst h13
                      simp only [escapeJChar]
                      norm_num
                      unfold parseStrBody
                      simp [ih]
                    · have hesc : escapeJChar c
                          = [92, 117, 48, 48, hexDigit (c / 16), hexDigit (c % 16)] := by
                        simp [escapeJChar, h34, h92, hctl, h8, h9, h10, h12, h13]
                      rw [hesc]
                      have h48 : hexVal 48 = some 0 := by decide
                      have hv₁ : hexVal (hexDigit (c / 16)) = some (c / 16) :=
                        hexVal_hexDigit _ (by omega)
                      have hv₂ : hexVal (hexDigit (c % 16)) = some (c % 16) :=
                        hexVal_hexDigit _ (by omega)
                      simp only [List.cons_append, List.nil_append]
                      unfold parseStrBody
                      simp [h48, hv₁, hv₂, ih]
                      omega
          · have hesc : escapeJChar c = [c] := by
              simp [escapeJChar, h34, h92, hctl]
            rw [hesc]
            simp only [List.cons_append, List.nil_append]
            unfold parseStrBody
            simp [h34, h92, hctl, ih]

/-- Every value needs at least one unit of fuel. -/
theorem jfuel_pos (v : JVal) : 1 ≤ jfuel v := by
  match v with
  | .jnull => simp [jfuel]
  | .jbool b => simp [jfuel]
  | .jstr s => simp [jfuel]
  | .jarr [] => simp [jfuel]
  | .jarr (x :: xs) => simp [jfuel]
  | .jobj [] => simp [jfuel]
  | .jobj ((k, v₁) :: kvs) => simp [jfuel]

/-- Item lists need at least one unit of fuel. -/
theorem jfuelItems_pos (x : JVal) (xs : List JVal) : 1 ≤ jfuelItems x xs := by
  match xs with
  | [] => simp [jfuelItems]
  | y :: ys => simp [jfuelItems]

/-- Entry lists need at least one unit of fuel. -/
theorem jfuelEntries_pos (v : JVal) (kvs : List (List Nat × JVal)) :
    1 ≤ jfuelEntries v kvs := by
  match kvs with
  | [] => simp [jfuelEntries]
  | (k, w) :: tl => simp [jfuelEntries]

/-- Correctness of `parseJ` on serializer output, with arbitrary leading
whitespace and arbitrary following input. -/
def ValGood (fuel : Nat) : Prop :=
  ∀ v lvl w rest, WsL w → jfuel v ≤ fuel →
    parseJ fuel (w ++ (dumpJ lvl v ++ rest)) = some (v, rest)

/-- Correctness of `parseArrItems` on the serialized tail of a non-empty
array: the items, the closing indentation, the `]`, then `rest`. -/
def ArrGood (fuel : Nat) : Prop :=
  ∀ x xs lvl w w₂ rest, WsL w → WsL w₂ → jfuelItems x xs ≤ fuel →
    parseArrItems fuel
      (w ++ (dumpJ lvl x ++ (dumpItems lvl xs ++ (w₂ ++ 93 :: rest))))
      = some (x :: xs, rest)

/-- Correctness of `parseObjItems` on the serialized tail of a non-empty
object. -/
def ObjGood (fuel : Nat) : Prop :=
  ∀ k v kvs lvl w w₂ rest, WsL w → WsL w₂ → jfuelEntries v kvs ≤ fuel →
    parseObjItems fuel
      (w ++ (encodeJString k ++ (58 :: 32 :: (dumpJ lvl v
        ++ (dumpEntries lvl kvs ++ (w₂ ++ 125 :: rest))))))
      = some ((k, v) :: kvs, rest)

/-- The empty whitespace run. -/
theorem wsl_nil : WsL [] := by intro c hc; simp at hc

/-- A single blank is a whitespace run (the key separator `': '`). -/
theorem wsl_blank : WsL [32] := by
  intro c hc
  simp at hc
  simp [hc, isWs]

/-- The parser inverts the serializer: simultaneous fuel induction for
values, array items and object entries. -/
theorem parse_dump_good (fuel : Nat) : ValGood fuel ∧ ArrGood fuel ∧ ObjGood fuel := by
  induction fuel with
  | zero =>
      refine ⟨?_, ?_, ?_⟩
      · intro v lvl w rest hw hf
        exact absurd hf (by have := jfuel_pos v; omega)
      · intro x xs lvl w w₂ rest hw hw₂ hf
        exact absurd hf (by have := jfuelItems_pos x xs; omega)
      · intro k v kvs lvl w w₂ rest hw hw₂ hf
        exact absurd hf (by have := jfuelEntries_pos v kvs; omega)
  | succ f ih =>
      obtain ⟨ihV, ihA, ihO⟩ := ih
      refine ⟨?_, ?_, ?_⟩
      · -- ValGood (f + 1)
        intro v lvl w rest hw hf
        have hws : skipWs (w ++ (dumpJ lvl v ++ rest)) = dumpJ lvl v ++ rest := by
          rw [skipWs_ws_append _ hw, skipWs_dump]
        match v with
        | .jnull =>
            unfold parseJ
            rw [hws]
            simp [dumpJ]
        | .jbool true =>
            unfold parseJ
            rw [hws]
            simp [dumpJ]
        | .jbool false =>
            unfold parseJ
            rw [hws]
            simp [dumpJ]
        | .jstr s =>
            unfold parseJ
            rw [hws]
            simp [dumpJ, encodeJString, List.append_assoc, parseStrBody_escape]
        | .jarr [] =>
            unfold parseJ
            rw [hws]
            simp [dumpJ, skipWs, isWs]
        | .jarr (x :: xs) =>
            have hT : dumpJ lvl (JVal.jarr (x :: xs)) ++ rest
                = 91 :: (nlIndent (lvl + 1) ++ (dumpJ (lvl + 1) x
                    ++ (dumpItems (lvl + 1) xs ++ (nlIndent lvl ++ (93 :: rest))))) := by
              simp [dumpJ, List.append_assoc]
            have hskip₂ : skipWs (nlIndent (lvl + 1) ++ (dumpJ (lvl + 1) x
                ++ (dumpItems (lvl + 1) xs ++ (nlIndent lvl ++ (93 :: rest)))))
                = dumpJ (lvl + 1) x
                    ++ (dumpItems (lvl + 1) xs ++ (nlIndent lvl ++ (93 :: rest))) := by
              rw [skipWs_ws_append _ (nlIndent_ws _), skipWs_dump]
            obtain ⟨c₀, t₀, hx, hxw, hx93, hx125, hx44, hx58⟩ := dumpJ_head (lvl + 1) x
            have harr : parseArrItems f (dumpJ (lvl + 1) x
                ++ (dumpItems (lvl + 1) xs ++ (nlIndent lvl ++ (93 :: rest))))
                = some (x :: xs, rest) := by
              have := ihA x xs (lvl + 1) [] (nlIndent lvl) rest wsl_nil (nlIndent_ws _)
                (by simp [jfuel] at hf; omega)
              simpa using this
            unfold parseJ
            rw [hws, hT]
            simp only [List.cons_append]
            norm_num
            rw [hskip₂, hx]
            simp only [List.cons_append, if_neg hx93]
            rw [← List.cons_append, ← hx, harr]
            rfl
        | .jobj [] =>
            unfold parseJ
            rw [hws]
            simp [dumpJ, skipWs, isWs]
        | .jobj ((k, v₁) :: kvs) =>
            have hT : dumpJ lvl (JVal.jobj ((k, v₁) :: kvs)) ++ rest
                = 123 :: (nlIndent (lvl + 1) ++ (encodeJString k
                    ++ (58 :: 32 :: (dumpJ (lvl + 1) v₁
                      ++ (dumpEntries (lvl + 1) kvs ++ (nlIndent lvl ++ (125 :: rest))))))) := by
              simp [dumpJ, List.append_assoc]
            have hskip₂ : skipWs (nlIndent (lvl + 1) ++ (encodeJString k
                ++ (58 :: 32 :: (dumpJ (lvl + 1) v₁
                  ++ (dumpEntries (lvl + 1) kvs ++ (nlIndent lvl ++ (125 :: rest)))))))
                = encodeJString k ++ (58 :: 32 :: (dumpJ (lvl + 1) v₁
                    ++ (dumpEntries (lvl + 1) kvs ++ (nlIndent lvl ++ (125 :: rest))))) := by
              rw [skipWs_ws_append _ (nlIndent_ws _), encodeJString]
              exact skipWs_cons_not _ (by decide)
            have hobj : parseObjItems f (encodeJString k ++ (58 :: 32 :: (dumpJ (lvl + 1) v₁
                ++ (dumpEntries (lvl + 1) kvs ++ (nlIndent lvl ++ (125 :: rest))))))
                = some ((k, v₁) :: kvs, rest) := by
              have := ihO k v₁ kvs (lvl + 1) [] (nlIndent lvl) rest wsl_nil (nlIndent_ws _)
                (by simp [jfuel] at hf; omega)
              simpa using this
            unfold parseJ
            rw [hws, hT]
            simp only [List.cons_append]
            norm_num
            rw [hskip₂]
            rw [show encodeJString k ++ (58 :: 32 :: (dumpJ (lvl + 1) v₁
                ++ (dumpEntries (lvl + 1) kvs ++ (nlIndent lvl ++ (125 :: rest)))))
              = 34 :: ((k.flatMap escapeJChar ++ [34]) ++ (58 :: 32 :: (dumpJ (lvl + 1) v₁
                ++ (dumpEntries (lvl + 1) kvs ++ (nlIndent lvl ++ (125 :: rest))))))
              from by simp [encodeJString]]
            simp only [if_neg (by decide : ¬(34 : Nat) = 125)]
            rw [show (34 : Nat) :: ((k.flatMap escapeJChar ++ [34]) ++ (58 :: 32 :: (dumpJ (lvl + 1) v₁
                ++ (dumpEntries (lvl + 1) kvs ++ (nlIndent lvl ++ (125 :: rest))))))
              = encodeJString k ++ (58 :: 32 :: (dumpJ (lvl + 1) v₁
                ++ (dumpEntries (lvl + 1) kvs ++ (nlIndent lvl ++ (125 :: rest)))))
              from by simp [encodeJString]]
            rw [hobj]
            rfl
      · -- ArrGood (f + 1)
        intro x xs lvl w w₂ rest hw hw₂ hf
        have hval : parseJ f (w ++ (dumpJ lvl x
            ++ (dumpItems lvl xs ++ (w₂ ++ 93 :: rest))))
            = some (x, dumpItems lvl xs ++ (w₂ ++ 93 :: rest)) := by
          refine ihV x lvl w _ hw ?_
          match xs with
          | [] => simp [jfuelItems] at hf; omega
          | y :: ys => simp [jfuelItems] at hf; omega
        unfold parseArrItems
        rw [hval]
        match xs with
        | [] =>
            have hs : skipWs (dumpItems lvl [] ++ (w₂ ++ 93 :: rest)) = 93 :: rest := by
              simp only [dumpItems, List.nil_append]
              rw [skipWs_ws_append _ hw₂]
              exact skipWs_cons_not _ (by decide)
            simp only [hs]
            norm_num
        | y :: ys =>
            have hs : skipWs (dumpItems lvl (y :: ys) ++ (w₂ ++ 93 :: rest))
                = 44 :: (nlIndent lvl ++ (dumpJ lvl y
                    ++ (dumpItems lvl ys ++ (w₂ ++ 93 :: rest)))) := by
              rw [show dumpItems lvl (y :: ys) ++ (w₂ ++ 93 :: rest)
                  = 44 :: (nlIndent lvl ++ (dumpJ lvl y
                      ++ (dumpItems lvl ys ++ (w₂ ++ 93 :: rest))))
                from by simp [dumpItems, List.append_assoc]]
              exact skipWs_cons_not _ (by decide)
            have htail : parseArrItems f (nlIndent lvl ++ (dumpJ lvl y
                ++ (dumpItems lvl ys ++ (w₂ ++ 93 :: rest))))
                = some (y :: ys, rest) :=
              ihA y ys lvl (nlIndent lvl) w₂ rest (nlIndent_ws _) hw₂
                (by simp [jfuelItems] at hf; omega)
            simp only [hs]
            norm_num
            rw [htail]
      · -- ObjGood (f + 1)
        intro k v kvs lvl w w₂ rest hw hw₂ hf
        have hs₁ : skipWs (w ++ (encodeJString k ++ (58 :: 32 :: (dumpJ lvl v
            ++ (dumpEntries lvl kvs ++ (w₂ ++ 125 :: rest))))))
            = 34 :: ((k.flatMap escapeJChar ++ [34]) ++ (58 :: 32 :: (dumpJ lvl v
              ++ (dumpEntries lvl kvs ++ (w₂ ++ 125 :: rest))))) := by
          rw [skipWs_ws_append _ hw]
          rw [show encodeJString k ++ (58 :: 32 :: (dumpJ lvl v
              ++ (dumpEntries lvl kvs ++ (w₂ ++ 125 :: rest))))
            = 34 :: ((k.flatMap escapeJChar ++ [34]) ++ (58 :: 32 :: (dumpJ lvl v
              ++ (dumpEntries lvl kvs ++ (w₂ ++ 125 :: rest)))))
            from by simp [encodeJString]]
          exact skipWs_cons_not _ (by decide)
        have hstr : parseStrBody (k.flatMap escapeJChar ++ (34 :: 58 :: 32 :: (dumpJ lvl v
            ++ (dumpEntries lvl kvs ++ (w₂ ++ 125 :: rest)))))
            = some (k, 58 :: 32 :: (dumpJ lvl v
                ++ (dumpEntries lvl kvs ++ (w₂ ++ 125 :: rest)))) :=
          parseStrBody_escape k _
        have hval : parseJ f (32 :: (dumpJ lvl v
            ++ (dumpEntries lvl kvs ++ (w₂ ++ 125 :: rest))))
            = some (v, dumpEntries lvl kvs ++ (w₂ ++ 125 :: rest)) := by
          have h := ihV v lvl [32] (dumpEntries lvl kvs ++ (w₂ ++ 125 :: rest)) wsl_blank
            (by match kvs with
                | [] => simp [jfuelEntries] at hf; omega
                | (k₂, w₃) :: tl => simp [jfuelEntries] at hf; omega)
          simpa using h
        unfold parseObjItems
        rw [hs₁]
        norm_num
        rw [hstr]
        simp only [skipWs, isWs]
        norm_num
        rw [hval]
        match kvs with
        | [] =>
            have hs₂ : skipWs (dumpEntries lvl [] ++ (w₂ ++ 125 :: rest)) = 125 :: rest := by
              simp only [dumpEntries, List.nil_append]
              rw [skipWs_ws_append _ hw₂]
              exact skipWs_cons_not _ (by decide)
            simp only [hs₂]
            norm_num
        | (k₂, v₂) :: tl =>
            have hs₂ : skipWs (dumpEntries lvl ((k₂, v₂) :: tl) ++ (w₂ ++ 125 :: rest))
                = 44 :: (nlIndent lvl ++ (encodeJString k₂ ++ (58 :: 32 :: (dumpJ lvl v₂
                    ++ (dumpEntries lvl tl ++ (w₂ ++ 125 :: rest)))))) := by
              rw [show dumpEntries lvl ((k₂, v₂) :: tl) ++ (w₂ ++ 125 :: rest)
                  = 44 :: (nlIndent lvl ++ (encodeJString k₂ ++ (58 :: 32 :: (dumpJ lvl v₂
                      ++ (dumpEntries lvl tl ++ (w₂ ++ 125 :: rest))))))
                from by simp [dumpEntries, List.append_assoc]]
              exact skipWs_cons_not _ (by decide)
            have htail : parseObjItems f (nlIndent lvl ++ (encodeJString k₂
                ++ (58 :: 32 :: (dumpJ lvl v₂
                  ++ (dumpEntries lvl tl ++ (w₂ ++ 125 :: rest))))))
                = some ((k₂, v₂) :: tl, rest) :=
              ihO k₂ v₂ tl lvl (nlIndent lvl) w₂ rest (nlIndent_ws _) hw₂
                (by simp [jfuelEntries] at hf; omega)
            simp only [hs₂]
            norm_num
            rw [htail]

/-- Every `JVal` has positive size. -/
theorem jval_sizeOf_pos (v : JVal) : 1 ≤ sizeOf v := by
  match v with
  | .jnull => simp
  | .jbool b => simp
  | .jstr s => simp
  | .jarr xs => simp
  | .jobj kvs => simp

/-- The fuel a value needs is at most the length of its serialization
(so the fuel `length + 1` used by `json_loads` always suffices on
serializer output).  Stated over a size bound `n` to drive the nested
induction. -/
theorem fuel_adequacy (n : Nat) :
    (∀ v lvl, sizeOf v ≤ n → jfuel v ≤ (dumpJ lvl v).length) ∧
    (∀ x xs lvl, sizeOf x + sizeOf xs ≤ n →
      jfuelItems x xs ≤ (dumpJ lvl x).length + (dumpItems lvl xs).length + 1) ∧
    (∀ v kvs lvl, sizeOf v + sizeOf kvs ≤ n →
      jfuelEntries v kvs ≤ (dumpJ lvl v).length + (dumpEntries lvl kvs).length + 1) := by
  induction n with
  | zero =>
      refine ⟨?_, ?_, ?_⟩
      · intro v lvl h
        exact absurd h (by have := jval_sizeOf_pos v; omega)
      · intro x xs lvl h
        exact absurd h (by have := jval_sizeOf_pos x; omega)
      · intro v kvs lvl h
        exact absurd h (by have := jval_sizeOf_pos v; omega)
  | succ m ih =>
      obtain ⟨ihA, ihB, ihC⟩ := ih
      have hlen : ∀ lvl v, 1 ≤ (dumpJ lvl v).length := by
        intro lvl v
        obtain ⟨c, t, heq, -⟩ := dumpJ_head lvl v
        rw [heq]
        simp
      refine ⟨?_, ?_, ?_⟩
      · intro v lvl h
        match v with
        | .jnull => simp [jfuel, dumpJ]
        | .jbool true => simp [jfuel, dumpJ]
        | .jbool false => simp [jfuel, dumpJ]
        | .jstr s => simp [jfuel, dumpJ, encodeJString]
        | .jarr [] => simp [jfuel, dumpJ]
        | .jarr (x :: xs) =>
            have hb := ihB x xs (lvl + 1) (by simp at h; omega)
            simp only [jfuel, dumpJ]
            simp only [List.length_cons, List.length_append, nlIndent,
              List.length_replicate]
            omega
        | .jobj [] => simp [jfuel, dumpJ]
        | .jobj ((k, v₁) :: kvs) =>
            have hc := ihC v₁ kvs (lvl + 1) (by simp at h; omega)
            simp only [jfuel, dumpJ]
            simp only [List.length_cons, List.length_append, nlIndent,
              List.length_replicate]
            omega
      · intro x xs lvl h
        match xs with
        | [] =>
            have ha := ihA x lvl (by simp at h; omega)
            simp only [jfuelItems, dumpItems, List.length_nil]
            omega
        | y :: ys =>
            have ha := ihA x lvl (by simp at h; omega)
            have hb := ihB y ys lvl (by simp at h; omega)
            have h₁ := hlen lvl y
            simp only [jfuelItems, dumpItems, List.length_cons, List.length_append,
              nlIndent, List.length_replicate]
            omega
      · intro v kvs lvl h
        match kvs with
        | [] =>
            have ha := ihA v lvl (by simp at h; omega)
            simp only [jfuelEntries, dumpEntries, List.length_nil]
            omega
        | (k₂, v₂) :: tl =>
            have ha := ihA v lvl (by simp at h; omega)
            have hc := ihC v₂ tl lvl (by simp at h; omega)
            have h₁ := hlen lvl v₂
            simp only [jfuelEntries, dumpEntries, List.length_cons, List.length_append,
              nlIndent, List.length_replicate]
            omega

/-- C6: serializing any JSON value (in particular any question record,
and any list of question records) with `ensure_ascii=False, indent=2`
and parsing the result back yields the value unchanged, field for
field. -/
theorem json_roundtrip (v : JVal) : json_loads (json_dumps v) = some v := by
  have hfuel : jfuel v ≤ (dumpJ 0 v).length + 1 := by
    have := (fuel_adequacy (sizeOf v)).1 v 0 (Nat.le_refl _)
    omega
  have h : parseJ ((dumpJ 0 v).length + 1) (dumpJ 0 v) = some (v, []) := by
    have := (parse_dump_good ((dumpJ 0 v).length + 1)).1 v 0 [] [] wsl_nil hfuel
    simpa using this
  unfold json_loads json_dumps
  rw [h]
  simp [skipWs]

/-! ## API response handling (`question_generator.py`
`generate_single_question` lines 216-254 and
`generate_fallback_question` lines 493-526)

```python
response_text = response.choices[0].message.content
start_idx = response_text.find('\x7b')
end_idx = response_text.rfind('\x7d') + 1
if start_idx != -1 and end_idx != -1:
    json_text = response_text[start_idx:end_idx]
    question_data = json.loads(json_text)
    question_data["generated_at"] = datetime.now().isoformat()
    question_data["question_id"] = f"BA_..."
    return question_data
else:
    raise ValueError(...)
```

all inside one `try` whose `except` returns
`generate_fallback_question(...)`; a missing client short-circuits to
the fallback before the call.  External effects are parameters of the
embedding: `clientOk` for `self.client`, `response = none` for an API
exception, `rand` for the `randint` draws and `now` for
`datetime.now().isoformat()`.  A parsed non-object value makes the item
assignment `question_data["generated_at"] = …` raise `TypeError`, which
the same `except` turns into the fallback (`withMeta` returns `none`
there). -/

/-- The `str.find` scan with a running index. -/
def pyFindAux (c : Nat) : List Nat → Nat → Option Nat
  | [], _ => none
  | d :: rest, i => if d = c then some i else pyFindAux c rest (i + 1)

/-- Model of `response_text.find(c)`: index of the first occurrence, else -1. -/
def pyFind (c : Nat) (s : List Nat) : Int :=
  match pyFindAux c s 0 with
  | some i => (i : Int)
  | none => -1

/-- The `str.rfind` scan keeping the last match seen. -/
def pyRfindAux (c : Nat) : List Nat → Nat → Option Nat → Option Nat
  | [], _, acc => acc
  | d :: rest, i, acc => pyRfindAux c rest (i + 1) (if d = c then some i else acc)

/-- Model of `response_text.rfind(c)`: index of the last occurrence, else -1. -/
def pyRfind (c : Nat) (s : List Nat) : Int :=
  match pyRfindAux c s 0 none with
  | some i => (i : Int)
  | none => -1

/-- Lines 237-241: compute `start_idx`/`end_idx` and slice
`response_text[start_idx:end_idx]`; `none` models the `raise
ValueError` path (caught by the enclosing `except`). -/
def extractJsonSlice (resp : List Nat) : Option (List Nat) :=
  let start := pyFind 123 resp
  let stop := pyRfind 125 resp + 1
  if start ≠ -1 ∧ stop ≠ -1 then
    some ((resp.drop start.toNat).take (stop - start).toNat)
  else none

/-- Decimal digits of a natural number (the rendering of `randint`
output inside an f-string). -/
def natDigitsAux : Nat → Nat → List Nat
  | 0, _ => []
  | fuel + 1, n => if n < 10 then [48 + n] else natDigitsAux fuel (n / 10) ++ [48 + n % 10]

/-- Model of `str(n)` for a natural number. -/
def natStr (n : Nat) : List Nat := natDigitsAux (n + 1) n

/-- Model of `d[k] = v` on a Python dictionary: update in place, else append. -/
def objSet (kvs : List (List Nat × JVal)) (k : List Nat) (v : JVal) :
    List (List Nat × JVal) :=
  match kvs with
  | [] => [(k, v)]
  | (k₁, v₁) :: rest => if k₁ = k then (k₁, v) :: rest else (k₁, v₁) :: objSet rest k v

/-- Field lookup on an object (`none` on other values or a missing
key). -/
def jGetKvs : List (List Nat × JVal) → List Nat → Option JVal
  | [], _ => none
  | (k₁, v) :: rest, k => if k₁ = k then some v else jGetKvs rest k

/-- Model of `record.get(key)` on a JSON value. -/
def jGet (j : JVal) (k : List Nat) : Option JVal :=
  match j with
  | .jobj kvs => jGetKvs kvs k
  | _ => none

/-- The static 선다형 fallback entry of `fallback_questions`. -/
def mcFallbackBase : List (List Nat × JVal) :=
  [(s2c "question", .jstr (s2c "다음 중 소프트웨어 개발 생명주기 모델이 아닌 것은?")),
   (s2c "choices", .jarr [.jstr (s2c "① 폭포수 모델"), .jstr (s2c "② 나선형 모델"),
      .jstr (s2c "③ 애자일 모델"), .jstr (s2c "④ V 모델"), .jstr (s2c "⑤ 관계형 모델")]),
   (s2c "correct_answer", .jstr (s2c "⑤")),
   (s2c "explanation",
    .jstr (s2c "관계형 모델은 데이터베이스 설계 모델이며, 소프트웨어 개발 생명주기 모델이 아닙니다."))]

/-- The static 단답형 fallback entry — note: no `alternative_answers`
field. -/
def saFallbackBase : List (List Nat × JVal) :=
  [(s2c "question",
    .jstr (s2c "요구사항 분석 단계에서 이해관계자의 요구사항을 수집하고 분석하는 과정을 무엇이라고 하는가?")),
   (s2c "correct_answer", .jstr (s2c "요구사항 도출")),
   (s2c "explanation",
    .jstr (s2c "요구사항 도출(Requirements Elicitation)은 이해관계자로부터 요구사항을 수집하고 명확화하는 과정입니다."))]

/-- The static 서술형 fallback entry. -/
def essayFallbackBase : List (List Nat × JVal) :=
  [(s2c "question", .jstr (s2c "애자일 개발방법론의 특징과 장단점에 대해 서술하시오.")),
   (s2c "model_answer",
    .jstr (s2c "애자일 개발방법론은 빠른 반복과 지속적인 피드백을 통해 소프트웨어를 개발하는 방법론입니다...")),
   (s2c "grading_criteria", .jarr [.jstr (s2c "애자일의 핵심 특징 설명"),
      .jstr (s2c "장점 2개 이상 서술"), .jstr (s2c "단점 1개 이상 서술")])]

/-- Model of `fallback_questions.get(question_type, fallback_questions["선다형"])`. -/
def fallbackBase (qt : List Nat) : List (List Nat × JVal) :=
  if qt = s2c "선다형" then mcFallbackBase
  else if qt = s2c "단답형" then saFallbackBase
  else if qt = s2c "서술형" then essayFallbackBase
  else mcFallbackBase

/-- Model of `"3" if difficulty == "하" else "4" if difficulty == "중" else "5"`. -/
def fallbackPoints (diff : List Nat) : List Nat :=
  if diff = s2c "하" then s2c "3"
  else if diff = s2c "중" then s2c "4"
  else s2c "5"

/-- Model of `generate_fallback_question(question_type, subject_area,
difficulty)`: the dictionary literal with `**base_data` spread at the
end (its keys do not collide with the literal ones). -/
def generate_fallback_question (qt subj diff : List Nat) (rand : Nat)
    (now : List Nat) : JVal :=
  .jobj ([(s2c "question_type", .jstr qt),
          (s2c "subject_area", .jstr subj),
          (s2c "difficulty", .jstr diff),
          (s2c "title", .jstr (qt ++ s2c " 문제")),
          (s2c "scenario", .jstr (s2c "일반적인 업무 상황")),
          (s2c "question_id", .jstr (s2c "FALLBACK_" ++ natStr rand)),
          (s2c "generated_at", .jstr now),
          (s2c "points", .jstr (fallbackPoints diff))]
        ++ fallbackBase qt)

/-- The two metadata assignments after a successful parse; `none` models
the `TypeError` raised when the parsed value is not an object. -/
def withMeta (j : JVal) (rand : Nat) (now : List Nat) : Option JVal :=
  match j with
  | .jobj kvs =>
      some (.jobj (objSet (objSet kvs (s2c "generated_at") (.jstr now))
        (s2c "question_id") (.jstr (s2c "BA_" ++ natStr rand))))
  | _ => none

/-- Model of `generate_single_question(question_type, subject_area, difficulty)`
with the external effects as parameters. -/
def generate_single_question (clientOk : Bool) (response : Option (List Nat))
    (qt subj diff : List Nat) (rand : Nat) (now : List Nat) : JVal :=
  if clientOk = false then generate_fallback_question qt subj diff rand now
  else
    match response with
    | none => generate_fallback_question qt subj diff rand now
    | some resp =>
        match extractJsonSlice resp with
        | none => generate_fallback_question qt subj diff rand now
        | some slice =>
            match json_loads slice with
            | none => generate_fallback_question qt subj diff rand now
            | some j =>
                match withMeta j rand now with
                | none => generate_fallback_question qt subj diff rand now
                | some j₂ => j₂

/-- Characterization of the `find` scan: either the code point is
absent, or the result is the length of the unique occurrence-free
prefix. -/
theorem pyFindAux_spec (c : Nat) (s : List Nat) (i : Nat) :
    (pyFindAux c s i = none ∧ c ∉ s) ∨
    (∃ a b, s = a ++ c :: b ∧ c ∉ a ∧ pyFindAux c s i = some (i + a.length)) := by
  induction s generalizing i with
  | nil => exact Or.inl ⟨rfl, by simp⟩
  | cons d rest ih =>
      by_cases hd : d = c
      · subst hd
        exact Or.inr ⟨[], rest, rfl, by simp, by simp [pyFindAux]⟩
      · rcases ih (i + 1) with ⟨h₁, h₂⟩ | ⟨a, b, heq, hna, hfind⟩
        · refine Or.inl ⟨?_, ?_⟩
          · simp [pyFindAux, hd, h₁]
          · simp [h₂]
            intro h
            exact hd h.symm
        · refine Or.inr ⟨d :: a, b, by rw [heq]; rfl, ?_, ?_⟩
          · simp [hna]
            intro h
            exact hd h.symm
          · simp [pyFindAux, hd, hfind]
            omega

/-- The `find` characterization at index 0. -/
theorem pyFind_spec (c : Nat) (s : List Nat) :
    (pyFind c s = -1 ∧ c ∉ s) ∨
    (∃ a b, s = a ++ c :: b ∧ c ∉ a ∧ pyFind c s = a.length) := by
  rcases pyFindAux_spec c s 0 with ⟨h₁, h₂⟩ | ⟨a, b, heq, hna, hfind⟩
  · exact Or.inl ⟨by simp [pyFind, h₁], h₂⟩
  · exact Or.inr ⟨a, b, heq, hna, by simp [pyFind, hfind]⟩

/-- Characterization of the `rfind` scan with accumulator. -/
theorem pyRfindAux_spec (c : Nat) (s : List Nat) (i : Nat) (acc : Option Nat) :
    (pyRfindAux c s i acc = acc ∧ c ∉ s) ∨
    (∃ a b, s = a ++ c :: b ∧ c ∉ b ∧ pyRfindAux c s i acc = some (i + a.length)) := by
  induction s generalizing i acc with
  | nil => exact Or.inl ⟨rfl, by simp⟩
  | cons d rest ih =>
      rcases ih (i + 1) (if d = c then some i else acc) with ⟨h₁, h₂⟩ | ⟨a, b, heq, hnb, hr⟩
      · by_cases hd : d = c
        · subst hd
          refine Or.inr ⟨[], rest, rfl, h₂, ?_⟩
          show pyRfindAux d rest (i + 1) (if d = d then some i else acc) = some (i + 0)
          rw [h₁, if_pos rfl]
          simp
        · refine Or.inl ⟨?_, ?_⟩
          · show pyRfindAux c rest (i + 1) (if d = c then some i else acc) = acc
            rw [h₁, if_neg hd]
          · simp [h₂]
            intro h
            exact hd h.symm
      · refine Or.inr ⟨d :: a, b, by rw [heq]; rfl, hnb, ?_⟩
        show pyRfindAux c rest (i + 1) (if d = c then some i else acc)
          = some (i + (d :: a).length)
        rw [hr]
        congr 1
        simp
        omega

/-- The `rfind` characterization: either absent, or the result is the start
of the unique occurrence whose suffix is occurrence-free. -/
theorem pyRfind_spec (c : Nat) (s : List Nat) :
    (pyRfind c s = -1 ∧ c ∉ s) ∨
    (∃ a b, s = a ++ c :: b ∧ c ∉ b ∧ pyRfind c s = a.length) := by
  rcases pyRfindAux_spec c s 0 none with ⟨h₁, h₂⟩ | ⟨a, b, heq, hnb, hr⟩
  · exact Or.inl ⟨by simp [pyRfind, h₁], h₂⟩
  · exact Or.inr ⟨a, b, heq, hnb, by simp [pyRfind, hr]⟩

/-- Two decompositions at an occurrence with occurrence-free prefixes
coincide. -/
theorem first_occ_unique {c : Nat} {x y u v : List Nat}
    (h : x ++ c :: y = u ++ c :: v) (hx : c ∉ x) (hu : c ∉ u) :
    x = u ∧ y = v := by
  induction x generalizing u with
  | nil =>
      match u with
      | [] => exact ⟨rfl, by simpa using h⟩
      | d :: u₁ =>
          simp at h
          exact absurd (h.1 ▸ List.mem_cons_self d u₁) (by simpa [h.1] using hu)
  | cons e x₁ ih =>
      match u with
      | [] =>
          simp at h
          exact absurd (h.1 ▸ List.mem_cons_self e x₁) (by simpa [h.1] using hx)
      | d :: u₁ =>
          simp only [List.cons_append, List.cons.injEq] at h
          obtain ⟨hed, htail⟩ := h
          have hx₁ : c ∉ x₁ := fun hmem => hx (List.mem_cons_of_mem _ hmem)
          have hu₁ : c ∉ u₁ := fun hmem => hu (List.mem_cons_of_mem _ hmem)
          obtain ⟨h₁, h₂⟩ := ih htail hx₁ hu₁
          exact ⟨by rw [hed, h₁], h₂⟩

/-- Two decompositions at an occurrence with occurrence-free suffixes
coincide. -/
theorem last_occ_unique {c : Nat} {x y u v : List Nat}
    (h : x ++ c :: y = u ++ c :: v) (hy : c ∉ y) (hv : c ∉ v) :
    x = u ∧ y = v := by
  have hrev : y.reverse ++ c :: x.reverse = v.reverse ++ c :: u.reverse := by
    have := congrArg List.reverse h
    simpa [List.reverse_append] using this
  obtain ⟨h₁, h₂⟩ := first_occ_unique hrev (by simpa using hy) (by simpa using hv)
  constructor
  · have := congrArg List.reverse h₂
    simpa using this
  · have := congrArg List.reverse h₁
    simpa using this

/-- The slice taken by `generate_single_question` runs exactly from the
first brace to the last closing brace, inclusive: the response splits as
`prefix ++ slice ++ suffix` with no `\x7b` in the prefix and no `\x7d` in
the suffix, and the slice starts with `\x7b` and ends with `\x7d`. -/
theorem extractJsonSlice_spec (resp p m a b : List Nat)
    (hp : resp = p ++ 123 :: m) (hpn : (123 : Nat) ∉ p)
    (ha : resp = a ++ 125 :: b) (hbn : (125 : Nat) ∉ b)
    (hle : p.length ≤ a.length) :
    extractJsonSlice resp
      = some ((resp.drop p.length).take (a.length + 1 - p.length)) ∧
    resp = p ++ ((resp.drop p.length).take (a.length + 1 - p.length)) ++ b ∧
    ((resp.drop p.length).take (a.length + 1 - p.length)).head? = some 123 ∧
    ((resp.drop p.length).take (a.length + 1 - p.length)).getLast? = some 125 := by
  have hfind : pyFind 123 resp = p.length := by
    rcases pyFind_spec 123 resp with ⟨h₁, h₂⟩ | ⟨a₁, b₁, heq, hna, hfind⟩
    · exact absurd (hp ▸ (by simp : (123 : Nat) ∈ p ++ 123 :: m)) h₂
    · obtain ⟨hpa, -⟩ := first_occ_unique (hp ▸ heq : p ++ 123 :: m = a₁ ++ 123 :: b₁).symm hna hpn
      rw [hfind, hpa]
  have hrfind : pyRfind 125 resp = a.length := by
    rcases pyRfind_spec 125 resp with ⟨h₁, h₂⟩ | ⟨a₁, b₁, heq, hnb, hr⟩
    · exact absurd (ha ▸ (by simp : (125 : Nat) ∈ a ++ 125 :: b)) h₂
    · obtain ⟨haa, -⟩ := last_occ_unique (ha ▸ heq : a ++ 125 :: b = a₁ ++ 125 :: b₁).symm hnb hbn
      rw [hr, haa]
  have hD : resp.drop p.length = a.drop p.length ++ 125 :: b := by
    conv_lhs => rw [ha]
    rw [List.drop_append_eq_append_drop,
      show p.length - a.length = 0 from by omega, List.drop_zero]
  have hDlen : (a.drop p.length).length = a.length - p.length := by
    simp
  have hslice : (resp.drop p.length).take (a.length + 1 - p.length)
      = a.drop p.length ++ [125] := by
    rw [hD, List.take_append_eq_append_take, hDlen,
      show a.length + 1 - p.length - (a.length - p.length) = 1 from by omega,
      List.take_of_length_le (by omega : (a.drop p.length).length ≤ a.length + 1 - p.length)]
    rfl
  have hpa : p ++ a.drop p.length = a := by
    have h₁ : a = resp.take a.length := by
      rw [ha, List.take_left]
    have h₂ : p = resp.take p.length := by
      rw [hp, List.take_left]
    rw [h₂]
    rw [show a.length = p.length + (a.length - p.length) from by omega] at h₁
    rw [List.take_add] at h₁
    rw [h₁]
    congr 1
    rw [hD, List.take_append_eq_append_take, hDlen,
      show a.length - p.length - (a.length - p.length) = 0 from by omega,
      List.take_of_length_le (by omega : (a.drop p.length).length ≤ a.length - p.length)]
    simp
  refine ⟨?_, ?_, ?_, ?_⟩
  · unfold extractJsonSlice
    rw [hfind, hrfind, if_pos ⟨by omega, by omega⟩,
      show ((p.length : Int)).toNat = p.length from by simp,
      show (((a.length : Int) + 1) - (p.length : Int)).toNat = a.length + 1 - p.length
        from by omega]
  · rw [hslice, show p ++ (a.drop p.length ++ [125]) ++ b = (p ++ a.drop p.length) ++ 125 :: b
      from by simp]
    rw [hpa]
    exact ha
  · have hD₂ : resp.drop p.length = 123 :: m := by
      conv_lhs => rw [hp]
      rw [List.drop_left]
    rw [hD₂, show a.length + 1 - p.length = (a.length - p.length) + 1 from by omega]
    rfl
  · rw [hslice]
    simp

/-- C4: `generate_single_question` slices the response from the first
brace to the last closing brace inclusive and parses that slice; on any
failure — client not configured, API exception, no brace found, parse
error, or a parsed non-object — it returns the static fallback record,
which carries the requested `question_type`, `subject_area` and
`difficulty`; on success it returns the parsed record with the two
metadata fields set. -/
theorem generate_single_question_spec (clientOk : Bool) (response : Option (List Nat))
    (qt subj diff : List Nat) (rand : Nat) (now : List Nat) :
    (clientOk = false →
      generate_single_question clientOk response qt subj diff rand now
        = generate_fallback_question qt subj diff rand now) ∧
    (response = none →
      generate_single_question clientOk response qt subj diff rand now
        = generate_fallback_question qt subj diff rand now) ∧
    (∀ resp, response = some resp → (123 : Nat) ∉ resp →
      generate_single_question clientOk response qt subj diff rand now
        = generate_fallback_question qt subj diff rand now) ∧
    (∀ resp slice, response = some resp → extractJsonSlice resp = some slice →
      json_loads slice = none →
      generate_single_question clientOk response qt subj diff rand now
        = generate_fallback_question qt subj diff rand now) ∧
    (∀ resp slice j, response = some resp → extractJsonSlice resp = some slice →
      json_loads slice = some j → withMeta j rand now = none →
      generate_single_question clientOk response qt subj diff rand now
        = generate_fallback_question qt subj diff rand now) ∧
    (∀ resp slice kvs, clientOk = true → response = some resp →
      extractJsonSlice resp = some slice → json_loads slice = some (JVal.jobj kvs) →
      generate_single_question clientOk response qt subj diff rand now
        = JVal.jobj (objSet (objSet kvs (s2c "generated_at") (JVal.jstr now))
            (s2c "question_id") (JVal.jstr (s2c "BA_" ++ natStr rand)))) ∧
    (jGet (generate_fallback_question qt subj diff rand now) (s2c "question_type")
        = some (JVal.jstr qt) ∧
     jGet (generate_fallback_question qt subj diff rand now) (s2c "subject_area")
        = some (JVal.jstr subj) ∧
     jGet (generate_fallback_question qt subj diff rand now) (s2c "difficulty")
        = some (JVal.jstr diff)) ∧
    (∀ resp p m a b, response = some resp →
      resp = p ++ 123 :: m → (123 : Nat) ∉ p →
      resp = a ++ 125 :: b → (125 : Nat) ∉ b → p.length ≤ a.length →
      extractJsonSlice resp
        = some ((resp.drop p.length).take (a.length + 1 - p.length)) ∧
      resp = p ++ ((resp.drop p.length).take (a.length + 1 - p.length)) ++ b ∧
      ((resp.drop p.length).take (a.length + 1 - p.length)).head? = some 123 ∧
      ((resp.drop p.length).take (a.length + 1 - p.length)).getLast? = some 125) := by
  refine ⟨?_, ?_, ?_, ?_, ?_, ?_, ?_, ?_⟩
  · intro h
    simp [generate_single_question, h]
  · intro h
    by_cases hc : clientOk = false
    · simp [generate_single_question, hc]
    · simp [generate_single_question, hc, h]
  · intro resp hresp hnot
    have hext : extractJsonSlice resp = none := by
      have hfind : pyFind 123 resp = -1 := by
        rcases pyFind_spec 123 resp with ⟨h₁, -⟩ | ⟨a, b, heq, -, -⟩
        · exact h₁
        · exact absurd (heq ▸ (by simp : (123 : Nat) ∈ a ++ 123 :: b)) hnot
      unfold extractJsonSlice
      rw [hfind, if_neg]
      intro hcond
      exact hcond.1 rfl
    by_cases hc : clientOk = false
    · simp [generate_single_question, hc]
    · simp [generate_single_question, hc, hresp, hext]
  · intro resp slice hresp hext hloads
    by_cases hc : clientOk = false
    · simp [generate_single_question, hc]
    · simp [generate_single_question, hc, hresp, hext, hloads]
  · intro resp slice j hresp hext hloads hmeta
    by_cases hc : clientOk = false
    · simp [generate_single_question, hc]
    · simp [generate_single_question, hc, hresp, hext, hloads, hmeta]
  · intro resp slice kvs hc hresp hext hloads
    simp [generate_single_question, hc, hresp, hext, hloads, withMeta]
  · have hne₁ : ¬(s2c "question_type" = s2c "subject_area") := by decide
    have hne₂ : ¬(s2c "question_type" = s2c "difficulty") := by decide
    have hne₃ : ¬(s2c "subject_area" = s2c "difficulty") := by decide
    refine ⟨?_, ?_, ?_⟩
    · simp [generate_fallback_question, jGet, jGetKvs]
    · simp [generate_fallback_question, jGet, jGetKvs, hne₁]
    · simp [generate_fallback_question, jGet, jGetKvs, hne₁, hne₂, hne₃]
  · intro resp p m a b hresp hp hpn ha hbn hle
    exact extractJsonSlice_spec resp p m a b hp hpn ha hbn hle

/-- Witness for `generate_single_question_spec`: the missing-client path
returns the fallback record, and the success path on the response
`ok \x7b"question_type": "선다형"\x7d end` returns the parsed object
with the `generated_at` and `question_id` fields set. -/
theorem generate_single_question_spec_witness :
    generate_single_question false none (s2c "선다형") (s2c "영역") (s2c "중") 42 (s2c "T")
      = generate_fallback_question (s2c "선다형") (s2c "영역") (s2c "중") 42 (s2c "T") ∧
    generate_single_question true
        (some (s2c "ok \x7b\"question_type\": \"선다형\"\x7d end"))
        (s2c "선다형") (s2c "영역") (s2c "중") 42 (s2c "T")
      = JVal.jobj (objSet (objSet [(s2c "question_type", JVal.jstr (s2c "선다형"))]
          (s2c "generated_at") (JVal.jstr (s2c "T")))
          (s2c "question_id") (JVal.jstr (s2c "BA_" ++ natStr 42))) :=
  ⟨(generate_single_question_spec false none (s2c "선다형") (s2c "영역") (s2c "중")
      42 (s2c "T")).1 rfl,
   (generate_single_question_spec true
      (some (s2c "ok \x7b\"question_type\": \"선다형\"\x7d end"))
      (s2c "선다형") (s2c "영역") (s2c "중") 42 (s2c "T")).2.2.2.2.2.1
      (s2c "ok \x7b\"question_type\": \"선다형\"\x7d end")
      (s2c "\x7b\"question_type\": \"선다형\"\x7d")
      [(s2c "question_type", JVal.jstr (s2c "선다형"))]
      rfl rfl rfl rfl⟩

/-! ## Static generator paths
(`src/generators/visual_generator.py` `EnhancedBAQuestionGenerator`
lines 283-437; `question_generator.py`
`generate_process_flow_question` lines 293-404 and
`generate_ui_design_question` lines 406-491)

Each path builds a record as a Python dictionary literal (or a template
`questions[question_type]` copy followed by a `.update(...)` of the
metadata keys).  `random.choice` over the scenario lists is modelled by
an index `si` (0 picks the first scenario, anything else the second /
only one); the rendered diagram, the timestamp and the `randint` draw
are parameters.  `visual_image` holds the base64 image string. -/

/-- Model of `'4' if difficulty == '중' else '3' if difficulty == '하' else '5'`. -/
def visPoints (difficulty : List Nat) : List Nat :=
  if difficulty = s2c "중" then s2c "4"
  else if difficulty = s2c "하" then s2c "3"
  else s2c "5"

/-- Model of `'5' if difficulty == '상' else '4' if difficulty == '중' else '3'`
(the table-normalization variant). -/
def tablePoints (difficulty : List Nat) : List Nat :=
  if difficulty = s2c "상" then s2c "5"
  else if difficulty = s2c "중" then s2c "4"
  else s2c "3"

/-- Domain name of the chosen ERD scenario. -/
def erdDomain (si : Nat) : List Nat :=
  if si = 0 then s2c "도서관 관리 시스템" else s2c "병원 관리 시스템"

/-- Model of `_generate_erd_question`: a 선다형 record. -/
def erdQuestion (si : Nat) (difficulty img now : List Nat) (rand : Nat) : JVal :=
  .jobj [(s2c "question_id", .jstr (s2c "ERD_" ++ natStr rand)),
    (s2c "title", .jstr (erdDomain si ++ s2c " ERD 분석")),
    (s2c "scenario", .jstr (s2c "다음은 " ++ erdDomain si ++ s2c "의 ERD입니다.")),
    (s2c "question_type", .jstr (s2c "선다형")),
    (s2c "question", .jstr (s2c "이 ERD에서 엔티티 간의 관계를 올바르게 설명한 것은?")),
    (s2c "choices", .jarr [.jstr (s2c "① 모든 엔티티가 1:1 관계로 연결됨"),
      .jstr (s2c "② 중심 엔티티를 통한 간접 관계 구조"),
      .jstr (s2c "③ 모든 엔티티가 독립적으로 존재"),
      .jstr (s2c "④ 순환 참조 구조로 설계됨"),
      .jstr (s2c "⑤ 계층적 상속 구조로 구성됨")]),
    (s2c "correct_answer", .jstr (s2c "②")),
    (s2c "explanation",
     .jstr (s2c "ERD에서 중심이 되는 엔티티(대출, 진료 등)를 통해 다른 엔티티들이 간접적으로 연결되는 구조입니다.")),
    (s2c "difficulty", .jstr difficulty),
    (s2c "subject_area", .jstr (s2c "데이터 모델링 – 데이터 모델링 > 논리데이터 모델링")),
    (s2c "visual_type", .jstr (s2c "erd")),
    (s2c "visual_image", .jstr img),
    (s2c "generated_at", .jstr now),
    (s2c "points", .jstr (visPoints difficulty))]

/-- Model of `_generate_table_question`: a 서술형 record (single scenario). -/
def tableQuestion (difficulty img now : List Nat) (rand : Nat) : JVal :=
  .jobj [(s2c "question_id", .jstr (s2c "TABLE_" ++ natStr rand)),
    (s2c "title", .jstr (s2c "직원 정보 테이블 정규화")),
    (s2c "scenario", .jstr (s2c "다음은 정규화가 필요한 직원 정보 테이블입니다.")),
    (s2c "question_type", .jstr (s2c "서술형")),
    (s2c "question", .jstr (s2c "이 테이블이 위반하는 정규형을 식별하고 정규화 방안을 제시하세요.")),
    (s2c "model_answer",
     .jstr (s2c "1NF 위반. 복수 값을 가진 컬럼을 별도 테이블로 분리하여 정규화 필요.")),
    (s2c "grading_criteria", .jarr [.jstr (s2c "정규형 위반 정확히 식별"),
      .jstr (s2c "정규화 방안 제시"), .jstr (s2c "분리된 테이블 구조 설명")]),
    (s2c "explanation", .jstr (s2c "정규화를 통해 데이터 중복을 제거하고 무결성을 확보할 수 있습니다.")),
    (s2c "difficulty", .jstr difficulty),
    (s2c "subject_area", .jstr (s2c "데이터 모델링 – 데이터 모델링 > 물리데이터 모델링")),
    (s2c "visual_type", .jstr (s2c "table")),
    (s2c "visual_image", .jstr img),
    (s2c "generated_at", .jstr now),
    (s2c "points", .jstr (tablePoints difficulty))]

/-- Model of `_generate_uml_question`: a 단답형 record (single scenario). -/
def umlQuestion (difficulty img now : List Nat) (rand : Nat) : JVal :=
  .jobj [(s2c "question_id", .jstr (s2c "UML_" ++ natStr rand)),
    (s2c "title", .jstr (s2c "결제 시스템 UML 설계")),
    (s2c "scenario", .jstr (s2c "다음은 결제 시스템의 UML 클래스 다이어그램입니다.")),
    (s2c "question_type", .jstr (s2c "단답형")),
    (s2c "question", .jstr (s2c "이 UML 다이어그램에서 사용된 디자인 패턴은?")),
    (s2c "correct_answer", .jstr (s2c "Strategy")),
    (s2c "alternative_answers", .jarr [.jstr (s2c "Strategy Pattern"), .jstr (s2c "전략 패턴")]),
    (s2c "explanation",
     .jstr (s2c "Strategy 패턴을 사용하여 결제 방식을 동적으로 변경할 수 있도록 설계되었습니다.")),
    (s2c "difficulty", .jstr difficulty),
    (s2c "subject_area", .jstr (s2c "프로세스 모델링 – 설계 > MSA 서비스 설계")),
    (s2c "visual_type", .jstr (s2c "uml")),
    (s2c "visual_image", .jstr img),
    (s2c "generated_at", .jstr now),
    (s2c "points", .jstr (visPoints difficulty))]

/-- Model of `generate_visual_question(template_type, difficulty)`: dispatch on
the template name, defaulting to the ERD path. -/
def generate_visual_question (template : List Nat) (si : Nat)
    (difficulty img now : List Nat) (rand : Nat) : JVal :=
  if template = s2c "erd_analysis" then erdQuestion si difficulty img now rand
  else if template = s2c "table_normalization" then tableQuestion difficulty img now rand
  else if template = s2c "uml_design" then umlQuestion difficulty img now rand
  else erdQuestion si difficulty img now rand

/-- Model of `question_type in scenario['questions']` for the flowchart and
UI-mockup templates (each holds exactly the three types). -/
def isThreeType (qt : List Nat) : Bool :=
  qt = s2c "선다형" || qt = s2c "단답형" || qt = s2c "서술형"

/-- The 선다형 flowchart template of scenario `si`. -/
def flowMCData (si : Nat) : List (List Nat × JVal) :=
  if si = 0 then
    [(s2c "question", .jstr (s2c "이 프로세스에서 첫 번째 의사결정 단계는?")),
     (s2c "choices", .jarr [.jstr (s2c "① 주문 접수"), .jstr (s2c "② 재고 확인"),
       .jstr (s2c "③ 재고 충분?"), .jstr (s2c "④ 결제 처리"), .jstr (s2c "⑤ 배송 준비")]),
     (s2c "correct_answer", .jstr (s2c "③")),
     (s2c "explanation",
      .jstr (s2c "의사결정 단계는 다이아몬드 모양으로 표시되며, 이 프로세스에서는 \"재고 충분?\" 단계가 첫 번째 의사결정 포인트입니다."))]
  else
    [(s2c "question", .jstr (s2c "이 프로세스에서 의사결정 단계는 몇 개입니까?")),
     (s2c "choices", .jarr [.jstr (s2c "① 1개"), .jstr (s2c "② 2개"),
       .jstr (s2c "③ 3개"), .jstr (s2c "④ 4개"), .jstr (s2c "⑤ 5개")]),
     (s2c "correct_answer", .jstr (s2c "②")),
     (s2c "explanation", .jstr (s2c "\"정보 유효?\"와 \"승인 완료?\" 두 개의 의사결정 단계가 있습니다."))]

/-- The 단답형 flowchart template of scenario `si`. -/
def flowSAData (si : Nat) : List (List Nat × JVal) :=
  if si = 0 then
    [(s2c "question", .jstr (s2c "재고가 부족할 경우 추가되어야 할 프로세스는?")),
     (s2c "correct_answer", .jstr (s2c "재고 보충")),
     (s2c "alternative_answers", .jarr [.jstr (s2c "재주문"), .jstr (s2c "입고 처리")]),
     (s2c "explanation", .jstr (s2c "재고 부족 시 재고 보충 또는 재주문 프로세스가 추가되어야 합니다."))]
  else
    [(s2c "question", .jstr (s2c "정보가 유효하지 않을 경우 이어질 프로세스는?")),
     (s2c "correct_answer", .jstr (s2c "정보 수정 요청")),
     (s2c "alternative_answers", .jarr [.jstr (s2c "재입력"), .jstr (s2c "수정 안내")]),
     (s2c "explanation", .jstr (s2c "정보 검증 실패 시 사용자에게 정보 수정을 요청하는 프로세스가 필요합니다."))]

/-- The 서술형 flowchart template of scenario `si`. -/
def flowEssayData (si : Nat) : List (List Nat × JVal) :=
  if si = 0 then
    [(s2c "question", .jstr (s2c "이 프로세스의 개선점과 예외 처리 방안을 제시하세요.")),
     (s2c "model_answer",
      .jstr (s2c "재고 부족 시 대체 상품 제안, 부분 배송 옵션 제공, 고객 알림 프로세스 추가, 결제 실패 시 재시도 로직, 배송 지연 시 고객 통지 등의 예외 처리 방안이 필요합니다.")),
     (s2c "grading_criteria", .jarr [.jstr (s2c "예외 상황 식별"),
       .jstr (s2c "구체적 개선 방안 제시"), .jstr (s2c "고객 경험 고려")]),
     (s2c "explanation",
      .jstr (s2c "실무에서는 정상 프로세스뿐만 아니라 다양한 예외 상황에 대한 처리 방안이 중요합니다."))]
  else
    [(s2c "question", .jstr (s2c "이 프로세스에서 고려해야 할 보안 요소와 개선방안을 서술하세요.")),
     (s2c "model_answer",
      .jstr (s2c "개인정보 암호화, 중복 가입 방지, 이메일 인증, 관리자 승인 로그 관리, 계정 생성 알림 등의 보안 요소가 필요하며, 자동화된 스팸 방지 및 다단계 인증을 통한 보안 강화가 필요합니다.")),
     (s2c "grading_criteria", .jarr [.jstr (s2c "보안 요소 식별"),
       .jstr (s2c "개선방안 제시"), .jstr (s2c "실무 적용성")]),
     (s2c "explanation", .jstr (s2c "회원 가입 프로세스에서는 보안과 사용자 편의성을 균형있게 고려해야 합니다."))]

/-- The `questions[question_type]` template of the chosen flowchart
scenario (0 = 주문 처리, otherwise 회원 가입 승인); for a type outside the
three the caller falls back to scenario 0's first entry (선다형). -/
def flowQData (si : Nat) (qt : List Nat) : List (List Nat × JVal) :=
  if qt = s2c "선다형" then flowMCData si
  else if qt = s2c "단답형" then flowSAData si
  else if qt = s2c "서술형" then flowEssayData si
  else flowMCData 0

/-- Title of the chosen flowchart scenario. -/
def flowScenTitle (si : Nat) : List Nat :=
  if si = 0 then s2c "주문 처리 프로세스" else s2c "회원 가입 승인 프로세스"

/-- Model of `dict.update(d)`: apply `objSet` for each entry of `d` in order. -/
def objUpdate (kvs upd : List (List Nat × JVal)) : List (List Nat × JVal) :=
  upd.foldl (fun acc kv => objSet acc kv.1 kv.2) kvs

/-- Model of `generate_process_flow_question(question_type, difficulty)`: copy
the per-type template of the chosen scenario (for a type outside the
three, the source falls back to scenario 0 and its first template) and
`.update(...)` the metadata keys. -/
def generate_process_flow_question (si : Nat) (qt difficulty img now : List Nat)
    (rand : Nat) : JVal :=
  let si₂ := if isThreeType qt then si else 0
  .jobj (objUpdate (flowQData si₂ qt)
    [(s2c "question_id", .jstr (s2c "FLOW_" ++ natStr rand)),
     (s2c "title", .jstr (flowScenTitle si₂)),
     (s2c "scenario", .jstr (s2c "다음은 " ++ flowScenTitle si₂ ++ s2c " 플로우차트입니다.")),
     (s2c "question_type", .jstr qt),
     (s2c "difficulty", .jstr difficulty),
     (s2c "subject_area", .jstr (s2c "프로세스 모델링 – 설계 > 업무 프로세스 설계")),
     (s2c "visual_type", .jstr (s2c "flowchart")),
     (s2c "visual_image", .jstr img),
     (s2c "generated_at", .jstr now),
     (s2c "points", .jstr (visPoints difficulty))])

/-- The 선다형 UI-mockup template (also the fallback for a type outside the
three, being the scenario's first entry). -/
def uiMCData : List (List Nat × JVal) :=
  [(s2c "question", .jstr (s2c "이 화면에서 개선이 필요한 UI 요소는?")),
   (s2c "choices", .jarr [.jstr (s2c "① 이름 입력 필드가 너무 작음"),
     .jstr (s2c "② 비밀번호 확인 필드 누락"),
     .jstr (s2c "③ 등록 버튼이 너무 작음"),
     .jstr (s2c "④ 이메일 형식 검증 표시 없음"),
     .jstr (s2c "⑤ 모든 요소가 적절함")]),
   (s2c "correct_answer", .jstr (s2c "②")),
   (s2c "explanation",
    .jstr (s2c "사용자 등록 화면에서는 비밀번호 확인 필드가 반드시 필요합니다. 비밀번호 입력 실수를 방지하기 위한 필수 요소입니다."))]

/-- The `questions[question_type]` template of the single UI scenario
(사용자 등록 화면 설계). -/
def uiQData (qt : List Nat) : List (List Nat × JVal) :=
  if qt = s2c "선다형" then uiMCData
  else if qt = s2c "단답형" then
    [(s2c "question", .jstr (s2c "사용자 경험을 향상시키기 위해 추가해야 할 검증 기능은?")),
     (s2c "correct_answer", .jstr (s2c "실시간 유효성 검사")),
     (s2c "alternative_answers", .jarr [.jstr (s2c "입력 검증"), .jstr (s2c "폼 검증")]),
     (s2c "explanation",
      .jstr (s2c "사용자가 입력하는 동안 실시간으로 유효성을 검사하여 즉시 피드백을 제공하는 것이 좋습니다."))]
  else if qt = s2c "서술형" then
    [(s2c "question", .jstr (s2c "이 등록 화면의 접근성과 사용성을 개선하기 위한 방안을 제시하세요.")),
     (s2c "model_answer",
      .jstr (s2c "접근성 개선방안: 폼 라벨과 입력 필드 연결, 키보드 탐색 순서 설정, 스크린 리더 지원, 충분한 색상 대비. 사용성 개선방안: 실시간 유효성 검사, 비밀번호 강도 표시, 자동완성 지원, 모바일 최적화, 진행률 표시 등이 필요합니다.")),
     (s2c "grading_criteria", .jarr [.jstr (s2c "접근성 요소 식별"),
       .jstr (s2c "사용성 개선방안"), .jstr (s2c "실무 적용 가능성")]),
     (s2c "explanation",
      .jstr (s2c "UI 설계에서는 모든 사용자가 편리하게 사용할 수 있도록 접근성과 사용성을 동시에 고려해야 합니다."))]
  else uiMCData

/-- Model of `generate_ui_design_question(question_type, difficulty)`. -/
def generate_ui_design_question (qt difficulty img now : List Nat) (rand : Nat) : JVal :=
  .jobj (objUpdate (uiQData qt)
    [(s2c "question_id", .jstr (s2c "UI_" ++ natStr rand)),
     (s2c "title", .jstr (s2c "사용자 등록 화면 설계")),
     (s2c "scenario", .jstr (s2c "다음은 사용자 등록 화면 설계 목업입니다.")),
     (s2c "question_type", .jstr qt),
     (s2c "difficulty", .jstr difficulty),
     (s2c "subject_area", .jstr (s2c "프로세스 모델링 – 분석 > 화면정의")),
     (s2c "visual_type", .jstr (s2c "ui_mockup")),
     (s2c "visual_image", .jstr img),
     (s2c "generated_at", .jstr now),
     (s2c "points", .jstr (visPoints difficulty))])

/-! ## Answer-field groups -/

/-- A field is populated when the key is present. -/
def hasF (j : JVal) (k : List Nat) : Bool := (jGet j k).isSome

/-- The multiple-choice group: `choices` + `correct_answer`. -/
def mcGroup (j : JVal) : Bool := hasF j (s2c "choices") && hasF j (s2c "correct_answer")

/-- The short-answer group: `correct_answer` + `alternative_answers`. -/
def saGroup (j : JVal) : Bool :=
  hasF j (s2c "correct_answer") && hasF j (s2c "alternative_answers")

/-- The essay group: `model_answer` + `grading_criteria`. -/
def essayGroup (j : JVal) : Bool :=
  hasF j (s2c "model_answer") && hasF j (s2c "grading_criteria")

/-- Exactly one of the three groups is fully populated. -/
def exactlyOneGroup (j : JVal) : Bool :=
  (mcGroup j && !saGroup j && !essayGroup j) ||
  (!mcGroup j && saGroup j && !essayGroup j) ||
  (!mcGroup j && !saGroup j && essayGroup j)

/-- The record's `question_type` is the string `t`. -/
def typeIs (j : JVal) (t : List Nat) : Bool :=
  match jGet j (s2c "question_type") with
  | some (.jstr s) => s = t
  | _ => false

/-- The claimed invariant: exactly one populated answer-field group, and
it is the group of the record's `question_type`. -/
def answerInvariant (j : JVal) : Bool :=
  exactlyOneGroup j &&
  ((typeIs j (s2c "선다형") && mcGroup j) ||
   (typeIs j (s2c "단답형") && saGroup j) ||
   (typeIs j (s2c "서술형") && essayGroup j))

/-- C3 counterexample: the 단답형 static fallback record populates
`correct_answer` but omits `alternative_answers`, so no answer-field
group is fully populated and the invariant fails; and the API-parsed
path returns records unvalidated — parsing the object holding only a
`question_type` of 선다형 yields a record with no `choices` that also
violates the invariant. -/
theorem answer_group_counterexample :
    (jGet (generate_fallback_question (s2c "단답형") (s2c "영역") (s2c "하") 42 (s2c "T"))
        (s2c "alternative_answers") = none ∧
     (jGet (generate_fallback_question (s2c "단답형") (s2c "영역") (s2c "하") 42 (s2c "T"))
        (s2c "correct_answer")).isSome = true ∧
     answerInvariant
        (generate_fallback_question (s2c "단답형") (s2c "영역") (s2c "하") 42 (s2c "T"))
        = false) ∧
    (typeIs (generate_single_question true
          (some (s2c "\x7b\"question_type\": \"선다형\"\x7d"))
          (s2c "선다형") (s2c "영역") (s2c "하") 42 (s2c "T"))
        (s2c "선다형") = true ∧
     jGet (generate_single_question true
          (some (s2c "\x7b\"question_type\": \"선다형\"\x7d"))
          (s2c "선다형") (s2c "영역") (s2c "하") 42 (s2c "T"))
        (s2c "choices") = none ∧
     answerInvariant (generate_single_question true
          (some (s2c "\x7b\"question_type\": \"선다형\"\x7d"))
          (s2c "선다형") (s2c "영역") (s2c "하") 42 (s2c "T")) = false) :=
  ⟨⟨rfl, rfl, rfl⟩, ⟨rfl, rfl, rfl⟩⟩

/-- The ERD path always satisfies the group invariant. -/
theorem erdQuestion_invariant (si : Nat) (difficulty img now : List Nat) (rand : Nat) :
    answerInvariant (erdQuestion si difficulty img now rand) = true := by
  simp +decide [erdQuestion, answerInvariant, exactlyOneGroup, mcGroup, saGroup,
    essayGroup, hasF, typeIs, jGet, jGetKvs]

/-- The table-normalization path always satisfies the group invariant. -/
theorem tableQuestion_invariant (difficulty img now : List Nat) (rand : Nat) :
    answerInvariant (tableQuestion difficulty img now rand) = true := by
  simp +decide [tableQuestion, answerInvariant, exactlyOneGroup, mcGroup, saGroup,
    essayGroup, hasF, typeIs, jGet, jGetKvs]

/-- The UML path always satisfies the group invariant. -/
theorem umlQuestion_invariant (difficulty img now : List Nat) (rand : Nat) :
    answerInvariant (umlQuestion difficulty img now rand) = true := by
  simp +decide [umlQuestion, answerInvariant, exactlyOneGroup, mcGroup, saGroup,
    essayGroup, hasF, typeIs, jGet, jGetKvs]

/-- The flowchart path satisfies the group invariant for each of the
three question types. -/
theorem flowQuestion_invariant (si : Nat) (qt difficulty img now : List Nat)
    (rand : Nat) (hqt : isThreeType qt = true) :
    answerInvariant (generate_process_flow_question si qt difficulty img now rand)
      = true := by
  have hcase : qt = s2c "선다형" ∨ qt = s2c "단답형" ∨ qt = s2c "서술형" := by
    simp [isThreeType] at hqt
    tauto
  rcases hcase with h | h | h <;> subst h <;> by_cases hsi : si = 0 <;>
    simp +decide [generate_process_flow_question, isThreeType, flowQData,
      flowMCData, flowSAData, flowEssayData, flowScenTitle, hsi, objUpdate, objSet,
      answerInvariant, exactlyOneGroup, mcGroup, saGroup, essayGroup, hasF,
      typeIs, jGet, jGetKvs]

/-- The UI-mockup path satisfies the group invariant for each of the
three question types. -/
theorem uiQuestion_invariant (qt difficulty img now : List Nat) (rand : Nat)
    (hqt : isThreeType qt = true) :
    answerInvariant (generate_ui_design_question qt difficulty img now rand)
      = true := by
  have hcase : qt = s2c "선다형" ∨ qt = s2c "단답형" ∨ qt = s2c "서술형" := by
    simp [isThreeType] at hqt
    tauto
  rcases hcase with h | h | h <;> subst h <;>
    simp +decide [generate_ui_design_question, uiQData, uiMCData, objUpdate, objSet,
      answerInvariant, exactlyOneGroup, mcGroup, saGroup, essayGroup, hasF,
      typeIs, jGet, jGetKvs]

/-- C3 amended: every record produced by the static template paths
(ERD, table-normalization, UML, and the flowchart and UI-mockup paths
for the three question types, also through the `generate_visual_question`
dispatcher) has exactly one fully populated answer-field group, the one
of its `question_type`; the 선다형 and 서술형 static fallbacks satisfy the
same invariant, while the 단답형 static fallback populates
`correct_answer` but omits `alternative_answers`, leaving no group fully
populated; API-parsed records are returned without shape validation. -/
theorem answer_groups_by_path (si : Nat) (template qt subj difficulty img now : List Nat)
    (rand : Nat) :
    answerInvariant (erdQuestion si difficulty img now rand) = true ∧
    answerInvariant (tableQuestion difficulty img now rand) = true ∧
    answerInvariant (umlQuestion difficulty img now rand) = true ∧
    answerInvariant (generate_visual_question template si difficulty img now rand)
      = true ∧
    (isThreeType qt = true →
      answerInvariant (generate_process_flow_question si qt difficulty img now rand)
        = true) ∧
    (isThreeType qt = true →
      answerInvariant (generate_ui_design_question qt difficulty img now rand)
        = true) ∧
    (qt = s2c "선다형" ∨ qt = s2c "서술형" →
      answerInvariant (generate_fallback_question qt subj difficulty rand now)
        = true) ∧
    (mcGroup (generate_fallback_question (s2c "단답형") subj difficulty rand now)
        = false ∧
     saGroup (generate_fallback_question (s2c "단답형") subj difficulty rand now)
        = false ∧
     essayGroup (generate_fallback_question (s2c "단답형") subj difficulty rand now)
        = false ∧
     (jGet (generate_fallback_question (s2c "단답형") subj difficulty rand now)
        (s2c "correct_answer")).isSome = true ∧
     jGet (generate_fallback_question (s2c "단답형") subj difficulty rand now)
        (s2c "alternative_answers") = none) := by
  refine ⟨erdQuestion_invariant si difficulty img now rand,
    tableQuestion_invariant difficulty img now rand,
    umlQuestion_invariant difficulty img now rand, ?_, ?_, ?_, ?_, ?_⟩
  · unfold generate_visual_question
    by_cases h₁ : template = s2c "erd_analysis"
    · rw [if_pos h₁]; exact erdQuestion_invariant si difficulty img now rand
    · rw [if_neg h₁]
      by_cases h₂ : template = s2c "table_normalization"
      · rw [if_pos h₂]; exact tableQuestion_invariant difficulty img now rand
      · rw [if_neg h₂]
        by_cases h₃ : template = s2c "uml_design"
        · rw [if_pos h₃]; exact umlQuestion_invariant difficulty img now rand
        · rw [if_neg h₃]; exact erdQuestion_invariant si difficulty img now rand
  · exact flowQuestion_invariant si qt difficulty img now rand
  · exact uiQuestion_invariant qt difficulty img now rand
  · intro hcase
    rcases hcase with h | h <;> subst h <;>
      simp +decide [generate_fallback_question, fallbackBase, mcFallbackBase,
        essayFallbackBase, answerInvariant, exactlyOneGroup, mcGroup, saGroup,
        essayGroup, hasF, typeIs, jGet, jGetKvs]
  · refine ⟨?_, ?_, ?_, ?_, ?_⟩ <;>
      simp +decide [generate_fallback_question, fallbackBase, saFallbackBase,
        mcGroup, saGroup, essayGroup, hasF, jGet, jGetKvs]

/-- Witness for `answer_groups_by_path` on the flowchart path with
question type 선다형 and scenario 0 (discharging the `isThreeType` and
fallback-type hypotheses at concrete inputs). -/
theorem answer_groups_by_path_witness :
    answerInvariant (generate_process_flow_question 0 (s2c "선다형") (s2c "중")
        (s2c "IMG") (s2c "T") 42) = true ∧
    answerInvariant (generate_fallback_question (s2c "선다형") (s2c "영역") (s2c "중")
        42 (s2c "T")) = true :=
  ⟨(answer_groups_by_path 0 (s2c "erd_analysis") (s2c "선다형") (s2c "영역")
      (s2c "중") (s2c "IMG") (s2c "T") 42).2.2.2.2.1 (by decide),
   (answer_groups_by_path 0 (s2c "erd_analysis") (s2c "선다형") (s2c "영역")
      (s2c "중") (s2c "IMG") (s2c "T") 42).2.2.2.2.2.2.1 (Or.inl rfl)⟩

end BAProject
